import Mathlib

/-!
Verification development for the fakegrid filter/path compiler
(`src/fakegrid/fakegrid.py` together with the schema tables of
`src/fakegrid/schema.py`).

The compiler `Fakegrid._apply_operator` turns a leaf filter
`[field_path, operator, *values]` into an SQLAlchemy clause; the path
resolver `Fakegrid._resolve_dotted_field` turns a dotted field path into a
list of joins plus a terminal field read.  We embed both shallowly:

* SQLAlchemy clause elements become the inductive `Clause` below, with
  SQL three-valued (Kleene) evaluation against a small relational store
  (`DB`); a row matches a WHERE clause iff the clause evaluates to
  `TV.t` (definite true), as in SQL.
* Python `datetime.datetime` becomes the record `DT` with the proleptic
  Gregorian calendar arithmetic (`toOrdinal`/`fromOrdinal` mirror
  `datetime._ymd2ord`/`_ord2ymd`), lexicographic comparison, and a
  validated `replace` that mirrors `datetime.replace` raising
  `ValueError` out of range.
* `datetime.datetime.utcnow()` is modelled as an explicit parameter
  `now : DT` passed to the compiler: it is the value of the system wall
  clock at compile time.  The source has no injected-clock parameter
  (the test suite assigns a `_now_function` attribute that no code under
  `src/` ever reads), so `now` is the ambient clock reading, not an
  input of the Python function.
* Python exceptions become the `Err` sum; `_apply_operator`'s mutual
  recursion over dotted paths is fueled (`Nat`), since on ill-formed
  schemas the Python recursion itself need not terminate.
-/

set_option maxRecDepth 4000

namespace Fakegrid

/-! ## SQL three-valued logic -/

/-- SQL truth values: true, false, unknown (NULL). -/
inductive TV where
  | t
  | f
  | u
deriving DecidableEq, Repr

/-- Kleene conjunction, the semantics of SQL `AND`. -/
def TV.and3 : TV → TV → TV
  | .f, _ => .f
  | _, .f => .f
  | .t, .t => .t
  | _, _ => .u

/-- Kleene disjunction, the semantics of SQL `OR`. -/
def TV.or3 : TV → TV → TV
  | .t, _ => .t
  | _, .t => .t
  | .f, .f => .f
  | _, _ => .u

/-- Kleene negation, the semantics of SQL `NOT`. -/
def TV.not3 : TV → TV
  | .t => .f
  | .f => .t
  | .u => .u

/-! ## Python `datetime.datetime` -/

/-- A Python `datetime.datetime` (naive), as a plain record of its seven
components.  Comparison is lexicographic, as in CPython. -/
structure DT where
  year : Int
  month : Int
  day : Int
  hour : Int
  minute : Int
  second : Int
  usec : Int
deriving DecidableEq, Repr

def DT.toList (d : DT) : List Int :=
  [d.year, d.month, d.day, d.hour, d.minute, d.second, d.usec]

/-- Strict lexicographic order on equal-length integer lists. -/
def lexLt : List Int → List Int → Bool
  | a :: as, b :: bs => a < b || (a == b && lexLt as bs)
  | _, _ => false

def DT.ltb (a b : DT) : Bool := lexLt a.toList b.toList

def DT.leb (a b : DT) : Bool := a == b || DT.ltb a b

/-- `calendar.isleap` (proleptic Gregorian). -/
def isLeap (y : Int) : Bool :=
  y % 4 == 0 && (y % 100 != 0 || y % 400 == 0)

/-- `calendar.monthrange(y, m)[1]`: the number of days of month `m` of
year `y`, for `m` in `1..12`. -/
def daysInMonth (y m : Int) : Int :=
  if m == 2 then (if isLeap y then 29 else 28)
  else if m == 4 || m == 6 || m == 9 || m == 11 then 30
  else 31

/-- Cumulative day count before month `m` in a non-leap year
(`datetime._DAYS_BEFORE_MONTH`). -/
def cumDaysBeforeMonth : Int → Int
  | 1 => 0
  | 2 => 31
  | 3 => 59
  | 4 => 90
  | 5 => 120
  | 6 => 151
  | 7 => 181
  | 8 => 212
  | 9 => 243
  | 10 => 273
  | 11 => 304
  | 12 => 334
  | _ => 0

def daysBeforeMonth (y m : Int) : Int :=
  cumDaysBeforeMonth m + (if 2 < m && isLeap y then 1 else 0)

/-- `datetime._ymd2ord`: proleptic Gregorian ordinal,
with `0001-01-01` as ordinal 1. -/
def toOrdinal (y m d : Int) : Int :=
  365 * (y - 1) + (y - 1).ediv 4 - (y - 1).ediv 100 + (y - 1).ediv 400
    + daysBeforeMonth y m + d

/-- Recover the month and day-of-month from a 0-based day of year. -/
def monthFromDoy (y doy : Int) : Nat → Int × Int
  | 0 => (1, doy + 1)
  | m + 1 =>
    if daysBeforeMonth y (m + 1) ≤ doy then
      ((m : Int) + 1, doy - daysBeforeMonth y (m + 1) + 1)
    else monthFromDoy y doy m

/-- `datetime._ord2ymd`: inverse of `toOrdinal`. -/
def fromOrdinal (n : Int) : Int × Int × Int :=
  let n0 := n - 1
  let n400 := n0.ediv 146097
  let r1 := n0.emod 146097
  let n100 := r1.ediv 36524
  let r2 := r1.emod 36524
  let n4 := r2.ediv 1461
  let r3 := r2.emod 1461
  let n1 := r3.ediv 365
  let r4 := r3.emod 365
  let year := n400 * 400 + n100 * 100 + n4 * 4 + n1 + 1
  if n1 == 4 || n100 == 4 then
    (year - 1, 12, 31)
  else
    let (m, d) := monthFromDoy year r4 12
    (year, m, d)

def usecPerDay : Int := 86400000000

def usecPerHour : Int := 3600000000

/-- Microseconds since `0001-01-01T00:00:00.000000`. -/
def DT.toMicros (d : DT) : Int :=
  (toOrdinal d.year d.month d.day - 1) * usecPerDay
    + d.hour * usecPerHour + d.minute * 60000000 + d.second * 1000000 + d.usec

def DT.fromMicros (n : Int) : DT :=
  let days := n.ediv usecPerDay
  let rem := n.emod usecPerDay
  let ymd := fromOrdinal (days + 1)
  { year := ymd.1, month := ymd.2.1, day := ymd.2.2
    hour := rem.ediv usecPerHour
    minute := (rem.emod usecPerHour).ediv 60000000
    second := (rem.emod 60000000).ediv 1000000
    usec := rem.emod 1000000 }

/-- `d + datetime.timedelta(microseconds=k)`. -/
def DT.addMicros (d : DT) (k : Int) : DT := DT.fromMicros (d.toMicros + k)

/-- `d + datetime.timedelta(hours=h)`. -/
def DT.addHours (d : DT) (h : Int) : DT := d.addMicros (h * usecPerHour)

/-- `d + datetime.timedelta(days=k)`. -/
def DT.addDays (d : DT) (k : Int) : DT := d.addMicros (k * usecPerDay)

/-- `d + datetime.timedelta(weeks=k)`. -/
def DT.addWeeks (d : DT) (k : Int) : DT := d.addMicros (k * 7 * usecPerDay)

/-- `datetime.date.weekday`: Monday is 0. -/
def DT.weekday (d : DT) : Int :=
  (toOrdinal d.year d.month d.day + 6) % 7

/-- `d.replace(hour=h, minute=mi, second=s, microsecond=us)` for
in-range time components (always valid as used by the source). -/
def DT.replaceTime (d : DT) (h mi s us : Int) : DT :=
  { d with hour := h, minute := mi, second := s, usec := us }

/-- `d.replace(month=m, day=dd, hour=h, minute=mi, second=s,
microsecond=us)`; `none` models the `ValueError` Python raises when the
new month or day is out of range. -/
def DT.replaceMonthDayTime (d : DT) (m dd h mi s us : Int) : Option DT :=
  if 1 ≤ m && m ≤ 12 && 1 ≤ dd && dd ≤ daysInMonth d.year m then
    some { d with month := m, day := dd, hour := h, minute := mi
                  second := s, usec := us }
  else
    none

/-! ## Structural string helpers

Kernel-reducible equivalents of `String.splitOn` / `String.contains` /
`String.intercalate` / `String.startsWith` / `String.endsWith` (the
core implementations recurse on byte positions and do not reduce inside
proofs). -/

def splitDotsAux : List Char → List Char → List String
  | [], acc => [String.mk acc.reverse]
  | '.' :: rest, acc => String.mk acc.reverse :: splitDotsAux rest []
  | c :: rest, acc => splitDotsAux rest (c :: acc)

/-- `s.split(".")` (Python) / `s.splitOn "."`. -/
def splitDots (s : String) : List String := splitDotsAux s.data []

/-- `"." in s` (Python) / `s.contains '.'`. -/
def hasDot (s : String) : Bool := s.data.contains '.'

/-- `sep.join(l)` (Python) / `String.intercalate sep l`. -/
def strJoin (sep : String) : List String → String
  | [] => ""
  | [x] => x
  | x :: rest => x ++ sep ++ strJoin sep rest

def strStartsWith (s p : String) : Bool := p.data.isPrefixOf s.data

def strEndsWith (s p : String) : Bool := p.data.isSuffixOf s.data

/-! ## Values, rows, clauses and their SQL evaluation -/

/-- A non-NULL SQL value as stored in a column: integer, string, or
datetime (SQLite stores datetimes as ISO strings, whose lexicographic
order coincides with `DT`'s component-wise order). -/
inductive SgValue where
  | i (n : Int)
  | s (t : String)
  | d (t : DT)
deriving DecidableEq, Repr

/-- SQL `<` on same-typed values; the modelled schemas never compare
values of different storage types. -/
def svLt : SgValue → SgValue → Bool
  | .i a, .i b => a < b
  | .s a, .s b => a < b
  | .d a, .d b => DT.ltb a b
  | _, _ => false

def svLe (a b : SgValue) : Bool := a == b || svLt a b

/-- SQL `LIKE` pattern matching over characters: `%` matches any
sequence, `_` any single character.  Fueled (every recursive call
shrinks `p.length + s.length`, so `likeMatch` supplies enough fuel). -/
def likeMatchF : Nat → List Char → List Char → Bool
  | 0, _, _ => false
  | fuel + 1, p, s =>
    match p, s with
    | [], [] => true
    | [], _ :: _ => false
    | '%' :: ps, s =>
      likeMatchF fuel ps s ||
        (match s with
         | [] => false
         | _ :: s2 => likeMatchF fuel ('%' :: ps) s2)
    | '_' :: ps, _ :: s => likeMatchF fuel ps s
    | '_' :: _, [] => false
    | c :: ps, c2 :: s => c == c2 && likeMatchF fuel ps s
    | _ :: _, [] => false

def likeMatch (p s : List Char) : Bool :=
  likeMatchF (p.length + s.length + 1) p s

/-- SQL `LIKE` on an `SgValue` (the source only builds LIKE patterns for
text columns). -/
def svLike (v : SgValue) (pat : String) : Bool :=
  match v with
  | .s t => likeMatch pat.toList t.toList
  | _ => false

/-- A database row: ordered association list from column name to value,
`none` being SQL NULL.  A column absent from the list reads as NULL. -/
def Row : Type := List (String × Option SgValue)

def Row.get (r : Row) (c : String) : Option SgValue :=
  match r.lookup c with
  | some v => v
  | none => none

/-- The store handed to the (out-of-scope) backend: rows per entity,
keyed by entity `api_name`. -/
def DB : Type := List (String × List Row)

def DB.rows (db : DB) (table : String) : List Row :=
  (db.lookup table).getD []

/-- A term of a compiled clause: a column of the row bound by the
`depth`-th enclosing correlated EXISTS (depth 0 = innermost alias, the
outermost query's row being the last), or a literal. -/
inductive Term where
  | col (depth : Nat) (name : String)
  | lit (v : SgValue)
  | nullLit
deriving DecidableEq, Repr

/-- The SQLAlchemy clause elements `_apply_operator` constructs.
`cisNull`/`cisNotNull` are the `== None` / `!= None` comparisons, which
SQLAlchemy renders as `IS NULL` / `IS NOT NULL` (definite, two-valued);
`cexists` is `select(text("NULL")).select_from(alias).where(inner).exists()`;
`pyNone` records the Python function returning `None` instead of a
clause (the fall-through of the entity-field dispatch). -/
inductive Clause where
  | tru
  | fls
  | land (a b : Clause)
  | lor (a b : Clause)
  | lnot (a : Clause)
  | ceq (a b : Term)
  | clt (a b : Term)
  | cle (a b : Term)
  | cgt (a b : Term)
  | cge (a b : Term)
  | cbetween (x lo hi : Term)
  | clike (x : Term) (pat : String)
  | cisNull (x : Term)
  | cisNotNull (x : Term)
  | cexists (table : String) (inner : Clause)
  | pyNone
deriving DecidableEq, Repr

/-- `sqlalchemy.and_(*cs)` (semantically; varargs encoded as a fold). -/
def Clause.andN (cs : List Clause) : Clause := cs.foldr Clause.land Clause.tru

/-- `sqlalchemy.or_(*cs)`. -/
def Clause.orN (cs : List Clause) : Clause := cs.foldr Clause.lor Clause.fls

def evalTerm (stack : List Row) : Term → Option SgValue
  | .col depth name =>
    match stack.get? depth with
    | some r => r.get name
    | none => none
  | .lit v => some v
  | .nullLit => none

/-- Three-valued comparison: NULL operands give UNKNOWN. -/
def cmpTV (f : SgValue → SgValue → Bool) (a b : Option SgValue) : TV :=
  match a, b with
  | some x, some y => if f x y then .t else .f
  | _, _ => .u

/-- SQL evaluation of a clause against the stack of rows bound by the
enclosing correlated queries (head = innermost). -/
def evalClause (db : DB) (stack : List Row) : Clause → TV
  | .tru => .t
  | .fls => .f
  | .land a b => TV.and3 (evalClause db stack a) (evalClause db stack b)
  | .lor a b => TV.or3 (evalClause db stack a) (evalClause db stack b)
  | .lnot a => TV.not3 (evalClause db stack a)
  | .ceq a b => cmpTV (fun x y => x == y) (evalTerm stack a) (evalTerm stack b)
  | .clt a b => cmpTV svLt (evalTerm stack a) (evalTerm stack b)
  | .cle a b => cmpTV svLe (evalTerm stack a) (evalTerm stack b)
  | .cgt a b => cmpTV (fun x y => svLt y x) (evalTerm stack a) (evalTerm stack b)
  | .cge a b => cmpTV (fun x y => svLe y x) (evalTerm stack a) (evalTerm stack b)
  | .cbetween x lo hi =>
    TV.and3 (cmpTV (fun a b => svLe b a) (evalTerm stack x) (evalTerm stack lo))
      (cmpTV svLe (evalTerm stack x) (evalTerm stack hi))
  | .clike x pat =>
    (match evalTerm stack x with
     | some v => if svLike v pat then .t else .f
     | none => .u)
  | .cisNull x =>
    (match evalTerm stack x with
     | some _ => .f
     | none => .t)
  | .cisNotNull x =>
    (match evalTerm stack x with
     | some _ => .t
     | none => .f)
  | .cexists table inner =>
    if (db.rows table).any (fun r => evalClause db (r :: stack) inner == .t)
    then .t else .f
  | .pyNone => .u

/-- A row of the queried entity matches a compiled WHERE clause iff the
clause evaluates to definite TRUE, as in SQL. -/
def satisfies (db : DB) (r : Row) (c : Clause) : Prop :=
  evalClause db [r] c = .t

instance (db : DB) (r : Row) (c : Clause) : Decidable (satisfies db r c) := by
  unfold satisfies; infer_instance

/-! ## Field types and operator allow-lists (`src/fakegrid/schema.py`) -/

inductive FieldTy where
  | Text
  | Float
  | MultiEntity
  | Number
  | Addressing
  | Checkbox
  | Color
  | Currency
  | Date
  | DateTime
  | Duration
  | Entity
  | Footage
  | Image
  | List
  | Password
  | Percent
  | Serializable
  | StatusList
  | Summary
  | TagList
  | Timecode
  | Url
  | EntityType
  | PivotColumn
  | Uuid
  | JsonB
  | Calculated
deriving DecidableEq, Repr

/-- The `FieldType` enum's `.value` strings. -/
def FieldTy.value : FieldTy → String
  | .Text => "text"
  | .Float => "float"
  | .MultiEntity => "multi_entity"
  | .Number => "number"
  | .Addressing => "addressing"
  | .Checkbox => "checkbox"
  | .Color => "color"
  | .Currency => "currency"
  | .Date => "date"
  | .DateTime => "date_time"
  | .Duration => "duration"
  | .Entity => "entity"
  | .Footage => "footage"
  | .Image => "image"
  | .List => "list"
  | .Password => "password"
  | .Percent => "percent"
  | .Serializable => "serializable"
  | .StatusList => "status_list"
  | .Summary => "summary"
  | .TagList => "tag_list"
  | .Timecode => "timecode"
  | .Url => "url"
  | .EntityType => "entity_type"
  | .PivotColumn => "pivot_column"
  | .Uuid => "uuid"
  | .JsonB => "jsonb"
  | .Calculated => "calculated"

/-- `ALLOWED_OPERATIONS_BY_FIELD_TYPE`: the per-field-type operator
allow-lists.  `none` models a field type that is **not** a key of the
dictionary (`EntityType`, `PivotColumn`, `Uuid`, `JsonB`, `Calculated`),
for which the lookup in `_apply_operator` raises `KeyError`. -/
def allowedOps : FieldTy → Option (List String)
  | .Text => some ["is", "is_not", "contains", "not_contains", "starts_with",
      "ends_with", "in", "not_in"]
  | .Float => some ["is", "is_not", "greater_than", "less_than", "between",
      "in", "not_in"]
  | .MultiEntity => some ["is", "is_not", "type_is", "type_is_not",
      "name_contains", "name_not_contains", "name_is", "in", "not_in"]
  | .Number => some ["is", "is_not", "less_than", "greater_than", "between",
      "not_between", "in", "not_in"]
  | .Addressing => some ["is", "is_not", "contains", "not_contains", "in",
      "type_is", "type_is_not", "name_contains", "name_not_contains",
      "name_starts_with", "name_ends_with"]
  | .Checkbox => some ["is", "is_not"]
  | .Color => some ["is", "is_not", "in", "not_in"]
  | .Currency => some ["is", "is_not", "less_than", "greater_than", "between",
      "not_between", "in", "not_in"]
  | .Date => some ["is", "is_not", "greater_than", "less_than", "in_last",
      "not_in_last", "in_next", "not_in_next", "in_calendar_day",
      "in_calendar_week", "in_calendar_month", "in_calendar_year", "between",
      "in", "not_in"]
  | .DateTime => some ["is", "is_not", "greater_than", "less_than", "in_last",
      "not_in_last", "in_next", "not_in_next", "in_calendar_day",
      "in_calendar_week", "in_calendar_month", "in_calendar_year", "between",
      "in", "not_in"]
  | .Duration => some ["is", "is_not", "greater_than", "less_than", "between",
      "in", "not_in"]
  | .Entity => some ["is", "is_not", "type_is", "type_is_not", "name_contains",
      "name_not_contains", "name_is", "in", "not_in"]
  | .Footage => some ["is", "is_not"]
  | .Image => some ["is", "is_not"]
  | .List => some ["is", "is_not", "in", "not_in"]
  | .Password => some []
  | .Percent => some ["is", "is_not", "greater_than", "less_than", "between",
      "in", "not_in"]
  | .Serializable => some []
  | .StatusList => some ["is", "is_not", "in", "not_in"]
  | .Summary => some []
  | .TagList => some ["is", "is_not", "name_contains", "name_not_contains",
      "name_id"]
  | .Timecode => some ["is", "is_not", "greater_than", "less_than", "between",
      "in", "not_in"]
  | .Url => some []
  | _ => none

/-! ## Schema model (`ShotgridField` / `ShotgridEntity` / `ShotgridSchema`)

Fields reference other fields by `(entity api_name, field api_name)`
pairs where the Python objects hold direct references; only the record
components read by the compiler and path resolver are modelled. -/

structure SgField where
  /-- `self.entity.api_name`: the owning entity. -/
  entity : String
  api_name : String
  field_type : FieldTy
  /-- `connection_entity`: `(connection entity api_name, field api_name on it)`. -/
  connection_entity : Option (String × String) := none
  /-- `reverse_of`, as `(entity api_name, field api_name)`. -/
  reverse_of : Option (String × String) := none
  /-- `parent_of`, each as `(entity api_name, field api_name)`. -/
  parent_of : List (String × String) := []
deriving DecidableEq, Repr

structure EntityDesc where
  api_name : String
  /-- Insertion-ordered field dictionary. -/
  fields : List (String × SgField)
deriving DecidableEq, Repr

def Schema : Type := List (String × EntityDesc)

def Schema.entity? (sch : Schema) (name : String) : Option EntityDesc :=
  sch.lookup name

def EntityDesc.field? (e : EntityDesc) (name : String) : Option SgField :=
  e.fields.lookup name

def Schema.field? (sch : Schema) (ent fieldName : String) : Option SgField :=
  (sch.entity? ent).bind (fun e => e.field? fieldName)

/-- `ShotgridEntity.name_field`: the first of `code`, `name`, `title`,
`content` that the entity has. -/
def EntityDesc.nameField (e : EntityDesc) : Option String :=
  (["code", "name", "title", "content"].filter
      (fun n => (e.field? n).isSome)).head?

/-- `ShotgridField.connection_query_target_field`. -/
def connectionQueryTargetField (sch : Schema) (f : SgField) : Option SgField :=
  if f.field_type ∉ [FieldTy.MultiEntity, FieldTy.Entity, FieldTy.Addressing,
      FieldTy.TagList] then
    none
  else if ¬ strEndsWith f.entity "Connection" then
    -- reverse of a single-entity link field: no connection table, return
    -- the parent field
    (if f.field_type ≠ FieldTy.MultiEntity then none
     else f.reverse_of.bind (fun p => sch.field? p.1 p.2))
  else
    match sch.entity? f.entity with
    | none => none
    | some ent =>
      ((ent.fields.filter (fun p =>
          p.2.field_type == FieldTy.Entity && p.2.api_name != f.api_name &&
            ¬ strStartsWith p.2.api_name "sg_")).head?).map (·.2)

/-! ## Python values crossing the API boundary -/

/-- A Python value appearing in a filter: `None`, `int`, `str`,
`datetime.datetime`, an entity dict with `id` and `type` keys (its
optional `name` key is never read by the compiler), or a list. -/
inductive PyVal where
  | none
  | int (n : Int)
  | str (s : String)
  | dt (d : DT)
  | ent (id : Int) (ty : String)
  | list (vs : List PyVal)
deriving Repr

def PyVal.isList : PyVal → Bool
  | .list _ => true
  | _ => false

def pad2 (n : Int) : String := if n < 10 then "0" ++ toString n else toString n

def padUsec (n : Int) : String :=
  let s := toString n
  String.mk (List.replicate (6 - s.length) '0') ++ s

/-- `str(datetime.datetime(...))`. -/
def dtStr (d : DT) : String :=
  toString d.year ++ "-" ++ pad2 d.month ++ "-" ++ pad2 d.day ++ " " ++
    pad2 d.hour ++ ":" ++ pad2 d.minute ++ ":" ++ pad2 d.second ++
    (if d.usec == 0 then "" else "." ++ padUsec d.usec)

mutual

/-- Python `str()` as used by the source's f-strings and `str(value)`
(dict/list rendering is approximate; no claim exercises it). -/
def pyStr : PyVal → String
  | .none => "None"
  | .int n => toString n
  | .str s => s
  | .dt d => dtStr d
  | .ent i ty => "\x7b\x27id\x27: " ++ toString i ++ ", \x27type\x27: \x27" ++ ty ++ "\x27\x7d"
  | .list vs => "[" ++ strJoin ", " (pyStrList vs) ++ "]"

def pyStrList : List PyVal → List String
  | [] => []
  | v :: vs => pyStr v :: pyStrList vs

end

mutual

/-- `json.dumps`, as far as the values modelled here go (only reachable
from `to_database` for field types whose operator allow-list already
rejected every operator, so dead on all compile paths). -/
def jsonDumps : PyVal → String
  | .none => "null"
  | .int n => toString n
  | .str s => "\"" ++ s ++ "\""
  | .dt d => "\"" ++ dtStr d ++ "\""
  | .ent i ty => "\x7b\x22id\x22: " ++ toString i ++ ", \x22type\x22: \x22" ++ ty ++ "\x22\x7d"
  | .list vs => "[" ++ strJoin ", " (jsonDumpsList vs) ++ "]"

def jsonDumpsList : List PyVal → List String
  | [] => []
  | v :: vs => jsonDumps v :: jsonDumpsList vs

end

mutual

/-- `ShotgridField.to_database`.  The `FieldType.Date` branch's
`strptime` call parses a `%Y-%m-%d` string into a `datetime.date`; since
`Date` columns are stored as strings and a parsed date binds back to the
identical ISO string, the string is kept unchanged here (no claim
filters on a `Date`-typed field). -/
def toDatabase (ft : FieldTy) : PyVal → PyVal
  | .none => .none
  | .list vs => .list (toDatabaseList ft vs)
  | v =>
    if ft == FieldTy.Text then .str (pyStr v)
    else if ft ∈ [FieldTy.Float, FieldTy.Number, FieldTy.Checkbox,
        FieldTy.Currency, FieldTy.Duration, FieldTy.Footage, FieldTy.Password,
        FieldTy.Percent, FieldTy.StatusList, FieldTy.Summary, FieldTy.Timecode,
        FieldTy.EntityType, FieldTy.PivotColumn, FieldTy.Uuid, FieldTy.JsonB]
      then v
    else if ft == FieldTy.Date then v
    else if ft == FieldTy.DateTime then v
    else if ft ∈ [FieldTy.JsonB, FieldTy.Serializable, FieldTy.Url] then
      .str (jsonDumps v)
    else v

def toDatabaseList (ft : FieldTy) : List PyVal → List PyVal
  | [] => []
  | v :: vs => toDatabase ft v :: toDatabaseList ft vs

end

/-! ## The filter compiler `Fakegrid._apply_operator` -/

instance {ε α : Type} [DecidableEq ε] [DecidableEq α] :
    DecidableEq (Except ε α) := fun x y =>
  match x, y with
  | .ok a, .ok b =>
    if h : a = b then .isTrue (congrArg Except.ok h)
    else .isFalse (fun he => h (by cases he; rfl))
  | .error a, .error b =>
    if h : a = b then .isTrue (congrArg Except.error h)
    else .isFalse (fun he => h (by cases he; rfl))
  | .ok _, .error _ => .isFalse (fun he => by cases he)
  | .error _, .ok _ => .isFalse (fun he => by cases he)

/-- Python exceptions escaping the compiler. -/
inductive Err where
  | fault (msg : String)
  | keyError (key : String)
  | attributeError (name : String)
  | indexError
  | typeError
  | valueError
  | assertionError
  | notImplemented (msg : String)
  | fuel
deriving DecidableEq, Repr

def faultNotARelation (ent f : String) : String :=
  "API read() " ++ ent ++ "." ++ f ++ " is not a valid relation."

def faultNotExist (ent f : String) : String :=
  "API read() " ++ ent ++ "." ++ f ++ " doesn\x27t exist."

/-- The `UnsupportedOperator` fault text, which names the valid operator
set of the field's type. -/
def unsupportedOpMsg (entityName fieldName ftv op : String)
    (validOps : List String) : String :=
  "API read() " ++ entityName ++ "." ++ fieldName ++ "\x27s \x27" ++ ftv ++
    "\x27 data type doesn\x27t support \x27" ++ op ++ "\x27 \x27relation\x27:\n" ++
    "Valid relations are: [" ++ strJoin ", " validOps ++ "]"

def relationExpectsInt (opname : String) (amount : PyVal) : String :=
  "API read() \x27" ++ opname ++ "\x27 \x27relation\x27 expects an integer:\n" ++
    pyStr amount

def relationExpectsUnit (opname : String) (unit : PyVal) : String :=
  "API read() \x27" ++ opname ++ "\x27 \x27relation\x27 expects a unit of time:\n" ++
    pyStr unit

/-- The `negative_operators` table: each negative operator and its
positive counterpart. -/
def negOf : String → Option String
  | "is_not" => some "is"
  | "not_in" => some "in"
  | "not_contains" => some "contains"
  | "not_between" => some "between"
  | "type_is_not" => some "type_is"
  | "name_not_contains" => some "name_contains"
  | "not_in_next" => some "in_next"
  | "not_in_last" => some "in_last"
  | _ => none

/-- `[(field_parts[i], field_parts[i+1] if len > i+1 else None) for i in
range(0, len(field_parts), 2)]`. -/
def pairUp : List String → List (String × Option String)
  | [] => []
  | [f] => [(f, none)]
  | f :: e :: rest => (f, some e) :: pairUp rest

/-- `".".join([i for i in f if i])` for one pair (Python truthiness
drops empty strings). -/
def joinPair (p : String × Option String) : String :=
  strJoin "."
    ((match p.2 with
      | some e => [p.1, e]
      | none => [p.1]).filter (fun s => s ≠ ""))

/-- `".".join(".".join([i for i in f if i]) for f in nested_fields)`. -/
def joinPairs (l : List (String × Option String)) : String :=
  strJoin "." (l.map joinPair)

/-- A Python value as the right-hand side of a comparison other than
`==`: `None` becomes an SQL NULL literal; dicts and lists cannot be
bound by the DB API. -/
def pyTerm : PyVal → Except Err Term
  | .none => .ok .nullLit
  | .int n => .ok (.lit (.i n))
  | .str s => .ok (.lit (.s s))
  | .dt d => .ok (.lit (.d d))
  | .ent _ _ => .error .typeError
  | .list _ => .error .typeError

/-- `column == value`: SQLAlchemy turns `== None` into `IS NULL`. -/
def mkEqPy (t : Term) (v : PyVal) : Except Err Clause :=
  match v with
  | .none => .ok (.cisNull t)
  | v => (pyTerm v).map (fun r => .ceq t r)

def inLastUnits : List String := ["HOUR", "DAY", "WEEK", "MONTH", "YEAR"]

/-- Hour count of `(amount, unit)` as computed by the `in_last` /
`in_next` branches. -/
def hoursOf (amount : Int) (unit : String) : Int :=
  if unit == "DAY" then amount * 24
  else if unit == "WEEK" then amount * 24 * 7
  else if unit == "MONTH" then amount * 24 * 30
  else if unit == "YEAR" then amount * 24 * 365
  else amount

/-- Field types whose columns are skipped by `schema_to_models`
(`IGNORED_TYPES`), so that `getattr(model, field)` raises
`AttributeError`. -/
def ignoredTypes : List FieldTy :=
  [FieldTy.PivotColumn, FieldTy.Calculated, FieldTy.Summary, FieldTy.JsonB]

/-- `operator == "is"` on a scalar column:
`and_(sql_field == value[0], sql_field != None)`. -/
def scalarIs (sqlField : Term) (value : List PyVal) : Except Err Clause :=
  match value.head? with
  | none => .error .indexError
  | some v => do
    let e ← mkEqPy sqlField v
    .ok (Clause.andN [e, .cisNotNull sqlField])

/-- `operator == "in"`:
`and_(or_(*[sql_field == i for i in value[0]]), sql_field != None)`. -/
def scalarIn (sqlField : Term) (value : List PyVal) : Except Err Clause :=
  match value.head? with
  | none => .error .indexError
  | some (.list vs) => do
    let es ← vs.mapM (fun i => mkEqPy sqlField i)
    .ok (Clause.andN [Clause.orN es, .cisNotNull sqlField])
  | some _ => .error .typeError

/-- `operator == "less_than"`. -/
def scalarLessThan (sqlField : Term) (value : List PyVal) : Except Err Clause :=
  match value.head? with
  | none => .error .indexError
  | some v => do
    let r ← pyTerm v
    .ok (Clause.andN [.clt sqlField r, .cisNotNull sqlField])

/-- `operator == "greater_than"`. -/
def scalarGreaterThan (sqlField : Term) (value : List PyVal) :
    Except Err Clause :=
  match value.head? with
  | none => .error .indexError
  | some v => do
    let r ← pyTerm v
    .ok (Clause.andN [.cgt sqlField r, .cisNotNull sqlField])

/-- `operator == "contains"`: `sql_field.like(f"%{value[0]}%")`. -/
def scalarContains (sqlField : Term) (value : List PyVal) :
    Except Err Clause :=
  match value.head? with
  | none => .error .indexError
  | some v =>
    .ok (Clause.andN [.clike sqlField ("%" ++ pyStr v ++ "%"),
      .cisNotNull sqlField])

/-- `operator == "starts_with"`: `sql_field.like(f"{value[0]}%")`. -/
def scalarStartsWith (sqlField : Term) (value : List PyVal) :
    Except Err Clause :=
  match value.head? with
  | none => .error .indexError
  | some v =>
    .ok (Clause.andN [.clike sqlField (pyStr v ++ "%"), .cisNotNull sqlField])

/-- `operator == "ends_with"`: `sql_field.like(f"%{value[0]}")`. -/
def scalarEndsWith (sqlField : Term) (value : List PyVal) :
    Except Err Clause :=
  match value.head? with
  | none => .error .indexError
  | some v =>
    .ok (Clause.andN [.clike sqlField ("%" ++ pyStr v), .cisNotNull sqlField])

/-- `operator == "between"`: `if isinstance(value[0], list): value =
value[0]`, then `sql_field.between(value[0], value[1])`. -/
def scalarBetween (sqlField : Term) (value : List PyVal) :
    Except Err Clause :=
  let value := match value.head? with
    | some (.list vs) => vs
    | _ => value
  match value.head?, value.get? 1 with
  | some v0, some v1 => do
    let lo ← pyTerm v0
    let hi ← pyTerm v1
    .ok (Clause.andN [.cbetween sqlField lo hi, .cisNotNull sqlField])
  | _, _ => .error .indexError

/-- `operator in ["in_last"]` (`fakegrid.py` lines 730-755): fixed
multipliers to hours, then
`sql_field >= utcnow() - timedelta(hours=hours)` and
`sql_field <= utcnow()`. -/
def scalarInLast (now : DT) (sqlField : Term) (value : List PyVal) :
    Except Err Clause :=
  match value with
  | [a, u] =>
    match a with
    | .int n =>
      (match u with
       | .str s =>
         if s ∈ inLastUnits then
           .ok (Clause.andN [
             .cge sqlField (.lit (.d (now.addHours (-(hoursOf n s))))),
             .cle sqlField (.lit (.d now)),
             .cisNotNull sqlField])
         else .error (.fault (relationExpectsUnit "in_last" u))
       | _ => .error (.fault (relationExpectsUnit "in_last" u)))
    | _ => .error (.fault (relationExpectsInt "in_last" a))
  | _ => .error .valueError

/-- `operator in ["in_next"]` (lines 756-782; its error messages reuse
the `in_last` text). -/
def scalarInNext (now : DT) (sqlField : Term) (value : List PyVal) :
    Except Err Clause :=
  match value with
  | [a, u] =>
    match a with
    | .int n =>
      (match u with
       | .str s =>
         if s ∈ inLastUnits then
           .ok (Clause.andN [
             .cle sqlField (.lit (.d (now.addHours (hoursOf n s)))),
             .cge sqlField (.lit (.d now)),
             .cisNotNull sqlField])
         else .error (.fault (relationExpectsUnit "in_last" u))
       | _ => .error (.fault (relationExpectsUnit "in_last" u)))
    | _ => .error (.fault (relationExpectsInt "in_last" a))
  | _ => .error .valueError

/-- `operator == "in_calendar_day"` (lines 783-799). -/
def scalarInCalendarDay (now : DT) (sqlField : Term) (value : List PyVal) :
    Except Err Clause :=
  match value.head? with
  | none => .error .indexError
  | some (.int n) =>
    let day := now.addDays n
    .ok (Clause.andN [
      .cbetween sqlField (.lit (.d (day.replaceTime 0 0 0 0)))
        (.lit (.d (day.replaceTime 23 59 59 999999))),
      .cisNotNull sqlField])
  | some a => .error (.fault (relationExpectsInt "in_calendar_day" a))

/-- `operator == "in_calendar_week"` (lines 800-815): Monday start. -/
def scalarInCalendarWeek (now : DT) (sqlField : Term) (value : List PyVal) :
    Except Err Clause :=
  match value.head? with
  | none => .error .indexError
  | some (.int n) =>
    let week := (now.addWeeks n).replaceTime 0 0 0 0
    let startOfWeek := week.addDays (-(week.weekday))
    .ok (Clause.andN [
      .cbetween sqlField (.lit (.d startOfWeek))
        (.lit (.d (startOfWeek.addDays 6))),
      .cisNotNull sqlField])
  | some a => .error (.fault (relationExpectsInt "in_calendar_week" a))

/-- `operator == "in_calendar_month"` (lines 816-840):
`month = utcnow().month + amount` without year wrapping (out-of-range
months make `replace` raise `ValueError`), and the end day is
`calendar.monthrange(month, month)[1]` — the month passed as the year. -/
def scalarInCalendarMonth (now : DT) (sqlField : Term) (value : List PyVal) :
    Except Err Clause :=
  match value.head? with
  | none => .error .indexError
  | some (.int n) =>
    let month := now.month + n
    match now.replaceMonthDayTime month 1 0 0 0 0 with
    | none => .error .valueError
    | some startOfMonth =>
      match now.replaceMonthDayTime month (daysInMonth month month)
          23 59 59 999999 with
      | none => .error .valueError
      | some endOfMonth =>
        .ok (Clause.andN [
          .cbetween sqlField (.lit (.d startOfMonth)) (.lit (.d endOfMonth)),
          .cisNotNull sqlField])
  | some a => .error (.fault (relationExpectsInt "in_calendar_month" a))

/-- The scalar (non-entity) leaf branch of `_apply_operator`
(`fakegrid.py` lines 710-843): `sqlField` is the single column of the
field, `now` the wall-clock value `datetime.datetime.utcnow()` returns
at compile time.  There is no `in_calendar_year` branch: the final
`else` raises `NotImplementedError`. -/
def scalarLeaf (now : DT) (sqlField : Term) (operator : String)
    (value : List PyVal) : Except Err Clause :=
  if operator == "is" then scalarIs sqlField value
  else if operator == "in" then scalarIn sqlField value
  else if operator == "less_than" then scalarLessThan sqlField value
  else if operator == "greater_than" then scalarGreaterThan sqlField value
  else if operator == "contains" then scalarContains sqlField value
  else if operator == "starts_with" then scalarStartsWith sqlField value
  else if operator == "ends_with" then scalarEndsWith sqlField value
  else if operator == "between" then scalarBetween sqlField value
  else if operator == "in_last" then scalarInLast now sqlField value
  else if operator == "in_next" then scalarInNext now sqlField value
  else if operator == "in_calendar_day" then
    scalarInCalendarDay now sqlField value
  else if operator == "in_calendar_week" then
    scalarInCalendarWeek now sqlField value
  else if operator == "in_calendar_month" then
    scalarInCalendarMonth now sqlField value
  else
    .error (.notImplemented ("Unsupported operator: " ++ operator))

/-- The entity-field leaf branch of `_apply_operator` (`fakegrid.py`
lines 664-709): comparisons over the `<field>_id` / `<field>_type` /
`<field>_name` shadow columns (`idT` / `tyT` / `nmT`).  The dispatch has
no final `else`, so an unhandled operator makes the Python function
return `None`. -/
def entityLeaf (idT tyT nmT : Term) (operator : String) (value : List PyVal) :
    Except Err Clause :=
  if operator == "is" then
    match value.head? with
    | none => .error .indexError
    | some .none => .ok (Clause.andN [.cisNull idT, .cisNull tyT])
    | some (.ent i ty) =>
      .ok (Clause.andN [.ceq idT (.lit (.i i)), .ceq tyT (.lit (.s ty)),
        .cisNotNull idT, .cisNotNull tyT])
    | some _ => .error .typeError
  else if operator == "type_is" then
    match value.head? with
    | none => .error .indexError
    | some .none => .ok (.cisNull tyT)
    | some v => mkEqPy tyT v
  else if operator == "name_contains" then
    match value.head? with
    | none => .error .indexError
    | some v =>
      .ok (Clause.andN [.clike nmT ("%" ++ pyStr v ++ "%"), .cisNotNull nmT])
  else if operator == "name_is" then
    match value.head? with
    | none => .error .indexError
    | some v => do
      let e ← mkEqPy nmT v
      .ok (Clause.andN [e, .cisNotNull nmT])
  else if operator == "in" then
    match value.head? with
    | none => .error .indexError
    | some (.list vs) => do
      let es ← vs.mapM (fun i =>
        match i with
        | .none => .ok (Clause.andN [.cisNull idT, .cisNull tyT])
        | .ent eid ety =>
          .ok (Clause.andN [.ceq idT (.lit (.i eid)), .ceq tyT (.lit (.s ety))])
        | _ => .error Err.typeError)
      .ok (Clause.andN [Clause.orN es, .cisNotNull idT, .cisNotNull tyT])
    | some _ => .error .typeError
  else
    .ok .pyNone

/-- The leaf stage of `_apply_operator` (`fakegrid.py` lines 645-843):
operator-legality check against the field type's allow-list, the
scalar-`in` rewrite, `to_database` conversion, and dispatch to the
entity-field or scalar branch.  `fieldSchema? = none` is the `"{self}"`
pseudo-field, treated as an entity comparison against the model's own
`id` / literal type name / name field. -/
def leafDispatch (now : DT) (model : EntityDesc) (fieldSchema? : Option SgField)
    (field operator : String) (value : List PyVal) : Except Err Clause :=
  -- `sql_field = getattr(model, field_schema.api_name)`: AttributeError
  -- for field types whose columns `schema_to_models` skips
  if (match fieldSchema? with
      | some fs => ignoredTypes.contains fs.field_type
      | none => false) then
    .error (.attributeError field)
  else
    let fieldType := match fieldSchema? with
      | some fs => fs.field_type
      | none => FieldTy.Entity
    let entityName := match fieldSchema? with
      | some fs => fs.entity
      | none => model.api_name
    match allowedOps fieldType with
    | none => .error (.keyError fieldType.value)
    | some validOps =>
      if operator ∉ validOps then
        .error (.fault
          (unsupportedOpMsg entityName field fieldType.value operator validOps))
      else
        -- `value[0]` is indexed by the scalar-`in` test before anything else
        match value.head? with
        | none => .error .indexError
        | some v0 =>
          let operator :=
            if ¬ v0.isList && (operator == "in" || operator == "not_in") then
              (if operator == "in" then "is" else "is_not")
            else operator
          let value := match fieldSchema? with
            | some fs => toDatabaseList fs.field_type value
            | none => value
          if fieldType == FieldTy.Entity then
            match fieldSchema? with
            | some fs =>
              entityLeaf (.col 0 (fs.api_name ++ "_id"))
                (.col 0 (fs.api_name ++ "_type"))
                (.col 0 (fs.api_name ++ "_name")) operator value
            | none =>
              let nmT := match model.nameField with
                | some nf => Term.col 0 nf
                | none => Term.nullLit
              entityLeaf (.col 0 "id") (.lit (.s model.api_name)) nmT
                operator value
          else
            match fieldSchema? with
            | some fs => scalarLeaf now (.col 0 fs.api_name) operator value
            | none => .error .assertionError

/-- `Fakegrid._apply_operator(field, model, operator, value)`.

`modelName` is `model._entity.api_name` (models and aliases are
identified by their entity, which is all the compiler reads of them);
`now` is the wall-clock value every `datetime.datetime.utcnow()` call
returns during this compilation; `fuel` bounds the recursion depth (the
Python recursion is not structurally decreasing: the multi-entity dotted
branch re-prepends the connection's target field to the remaining
path). -/
def applyOperator (sch : Schema) (now : DT) :
    Nat → String → String → String → List PyVal → Except Err Clause
  | 0, _, _, _, _ => .error .fuel
  | fuel + 1, field, modelName, operator, value =>
    match negOf operator with
    | some positive =>
      -- negative operators compile as NOT of their positive counterpart
      (applyOperator sch now fuel field modelName positive value).map .lnot
    | none =>
      if hasDot field then
        match pairUp (splitDots field) with
        | [] => .error .indexError
        | (nextField, nextEntityType?) :: restPairs =>
          match nextEntityType? with
          | some nextEntityType =>
            -- `self._fakegrid_models[next_entity_type]`, KeyError → Fault
            match sch.entity? nextEntityType with
            | none => .error (.fault (faultNotARelation modelName nextField))
            | some _ =>
              match sch.entity? modelName with
              | none => .error (.keyError modelName)
              | some model =>
                match model.field? nextField with
                | none => .error (.fault (faultNotExist modelName nextField))
                | some fs =>
                  if fs.field_type ∉ [FieldTy.Entity, FieldTy.MultiEntity,
                      FieldTy.Addressing, FieldTy.TagList] then
                    .error (.fault (faultNotARelation modelName field))
                  else if fs.field_type ∈ [FieldTy.MultiEntity,
                      FieldTy.Addressing, FieldTy.TagList] then
                    -- multi-entity hop: EXISTS over the connection (or
                    -- reverse) entity
                    match fs.connection_entity <|>
                        ((fs.parent_of.filter
                          (fun p => p.1 == nextEntityType)).head?) with
                    | none => .error (.fault (faultNotARelation modelName field))
                    | some (connEntName, connFieldName) =>
                      match sch.entity? connEntName with
                      | none => .error (.keyError connEntName)
                      | some connEnt =>
                        match connEnt.field? connFieldName with
                        | none => .error (.keyError connFieldName)
                        | some connField =>
                          let oppositeField :=
                            connectionQueryTargetField sch connField
                          let fieldRest := joinPairs restPairs
                          let fieldRec :=
                            match oppositeField with
                            | some opp =>
                              opp.api_name ++ "." ++ nextEntityType ++ "." ++
                                fieldRest
                            | none => fieldRest
                          match applyOperator sch now fuel fieldRec connEntName
                              operator value with
                          | .error e => .error e
                          | .ok innerWhere =>
                            -- `getattr(conn_alias, f"{conn_field.api_name}_id")`
                            -- (no default here): the shadow columns exist only
                            -- for Entity-typed connection fields
                            if connField.field_type != FieldTy.Entity then
                              .error (.attributeError
                                (connField.api_name ++ "_id"))
                            else
                              .ok (.cexists connEntName (Clause.andN [
                                .ceq (.col 0 (connField.api_name ++ "_id"))
                                  (.col 1 "id"),
                                .ceq (.col 0 (connField.api_name ++ "_type"))
                                  (.lit (.s modelName)),
                                innerWhere]))
                  else
                    -- single-entity hop
                    match applyOperator sch now fuel (joinPairs restPairs)
                        nextEntityType operator value with
                    | .error e => .error e
                    | .ok innerWhere =>
                      .ok (Clause.andN [
                        .cexists nextEntityType (Clause.andN [
                          .ceq (.col 1 (nextField ++ "_id")) (.col 0 "id"),
                          innerWhere]),
                        .ceq (.col 0 (nextField ++ "_type"))
                          (.lit (.s nextEntityType))])
          | none =>
            applyOperator sch now fuel nextField modelName operator value
      else
        match sch.entity? modelName with
        | none => .error (.keyError modelName)
        | some model =>
          let fieldSchema? := model.field? field
          if fieldSchema?.isNone && field != "\x7bself\x7d" then
            .error (.fault (faultNotExist modelName field))
          else
            match fieldSchema? with
            | some fs =>
              if fs.field_type ∈ [FieldTy.MultiEntity, FieldTy.Addressing,
                  FieldTy.TagList] then
                -- bare multi-entity field: EXISTS over the connection (or
                -- reverse-of) entity
                match fs.connection_entity <|> fs.reverse_of with
                | none => .error (.fault (faultNotARelation modelName field))
                | some (connEntName, connFieldName) =>
                  match sch.entity? connEntName with
                  | none => .error (.keyError connEntName)
                  | some connEnt =>
                    match connEnt.field? connFieldName with
                    | none => .error (.keyError connFieldName)
                    | some connField =>
                      let innerField :=
                        match connectionQueryTargetField sch connField with
                        | some opp => opp.api_name
                        | none => "\x7bself\x7d"
                      match applyOperator sch now fuel innerField connEntName
                          operator value with
                      | .error e => .error e
                      | .ok innerWhere =>
                        -- `getattr(conn_alias, f"...", default)`: fall back to
                        -- the connection row's own id / literal type name
                        let idMatch :=
                          if connField.field_type == FieldTy.Entity then
                            Clause.ceq (.col 0 (connField.api_name ++ "_id"))
                              (.col 1 "id")
                          else
                            Clause.ceq (.col 0 "id") (.col 1 "id")
                        let tyMatch :=
                          if connField.field_type == FieldTy.Entity then
                            Clause.ceq (.col 0 (connField.api_name ++ "_type"))
                              (.lit (.s modelName))
                          else
                            Clause.ceq (.lit (.s connField.entity))
                              (.lit (.s modelName))
                        .ok (.cexists connEntName
                          (Clause.andN [idMatch, tyMatch, innerWhere]))
              else
                leafDispatch now model (some fs) field operator value
            | none =>
              leafDispatch now model none field operator value

/-! ## The path resolver `Fakegrid._resolve_dotted_field` -/

inductive JoinKind where
  /-- single-entity hop: `prev.<f>_id == new.id ∧ prev.<f>_type == target` -/
  | entity
  /-- hop onto the connection entity: `prev.id == new.<via>_id ∧
  new.<via>_type == parent entity ∧ not new.is_retired` -/
  | connParent
  /-- hop from the connection entity to the target entity:
  `new.id == conn.<via>_id ∧ conn.<via>_type == target ∧ not conn.is_retired` -/
  | connChild
  /-- hop onto the reverse entity of a connection-less multi-entity field -/
  | reverse
deriving DecidableEq, Repr

/-- One join appended to the plan: the aliased entity joined and the
field whose (shadow) columns drive the join condition. -/
structure JoinRec where
  kind : JoinKind
  target : String
  via : String
deriving DecidableEq, Repr

/-- The `for i in range(0, len(field_layers), 2)` loop of
`_resolve_dotted_field`, two path tokens per iteration.  State mirrors
the Python locals: `parentSchema` the current entity, `prev`/`par` the
entity names aliased by `previous_alias`/`parent_alias`, `fieldVar` the
mutable `field` variable, `joins` the accumulated join list. -/
def resolveLoop (sch : Schema) :
    List (String × Option String) → EntityDesc → String → String → String →
      List JoinRec → Except Err (List JoinRec × String × String × String)
  | [], _, prev, par, fieldVar, joins => .ok (joins, prev, fieldVar, par)
  | (f, oe) :: rest, parentSchema, prev, par, _, joins =>
    match parentSchema.field? f with
    | none => .error (.keyError f)
    | some fs =>
      let fieldEntityName := oe.getD prev
      let step : Except Err (String × String × String × List JoinRec) :=
        if fs.field_type == FieldTy.Entity then
          match sch.entity? fieldEntityName with
          | none => .error (.keyError fieldEntityName)
          | some _ =>
            -- the join is added only if the path continues (`i + 2 < len`)
            if rest.isEmpty then .ok (prev, par, f, joins)
            else .ok (fieldEntityName, prev, f,
              joins ++ [⟨.entity, fieldEntityName, f⟩])
        else if fs.field_type == FieldTy.MultiEntity then
          match fs.connection_entity with
          | some (connEntName, connFieldName) =>
            match sch.entity? connEntName with
            | none => .error (.keyError connEntName)
            | some connEnt =>
              match connEnt.field? connFieldName with
              | none => .error (.keyError connFieldName)
              | some connField =>
                match connectionQueryTargetField sch connField with
                | none => .error .assertionError
                | some connOpposite =>
                  match sch.entity? fieldEntityName with
                  | none => .error (.keyError fieldEntityName)
                  | some _ =>
                    let joins1 := joins ++ [⟨.connParent, connEntName,
                      connFieldName⟩]
                    -- the target-entity join is added only when drilling
                    -- further; a bare terminal stays on the connection alias
                    if rest.isEmpty then
                      .ok (connEntName, prev, connOpposite.api_name, joins1)
                    else
                      .ok (fieldEntityName, prev, connOpposite.api_name,
                        joins1 ++ [⟨.connChild, fieldEntityName,
                          connOpposite.api_name⟩])
          | none =>
            match fs.reverse_of with
            | none => .error .assertionError
            | some (revEntName, revFieldName) =>
              match sch.entity? revEntName with
              | none => .error (.keyError revEntName)
              | some _ =>
                .ok (revEntName, prev, "id",
                  joins ++ [⟨.reverse, revEntName, revFieldName⟩])
        else
          -- Addressing / TagList and plain fields take no branch
          .ok (prev, par, f, joins)
      match step with
      | .error e => .error e
      | .ok (prev2, par2, fieldVar2, joins2) =>
        -- `parent_schema = self._fakegrid_schema.entities[field_entity_name]`
        match sch.entity? fieldEntityName with
        | none => .error (.keyError fieldEntityName)
        | some nextSchema =>
          resolveLoop sch rest nextSchema prev2 par2 fieldVar2 joins2

/-- `Fakegrid._resolve_dotted_field(model, field, joins)`: returns the
extended join list, the entity aliased by `previous_alias`, the terminal
field name, and the entity aliased by `parent_alias`. -/
def resolveDottedField (sch : Schema) (modelName field : String)
    (joins : List JoinRec) :
    Except Err (List JoinRec × String × String × String) :=
  match sch.entity? modelName with
  | none => .error (.keyError modelName)
  | some model =>
    let parts := splitDots field
    let dottedEntity :=
      if parts.length > 1 then (parts.get? (parts.length - 2)).getD ""
      else model.api_name
    let dottedField :=
      if parts.length > 1 then parts.getLast?.getD "" else field
    match sch.entity? dottedEntity with
    | none => .error (.keyError dottedEntity)
    | some de =>
      match de.field? dottedField with
      | none => .error (.fault (faultNotExist modelName field))
      | some dfs =>
        let isMulti := [FieldTy.MultiEntity, FieldTy.Addressing,
          FieldTy.TagList].contains dfs.field_type
        if ¬ hasDot field && ¬ isMulti then
          .ok (joins, modelName, field, modelName)
        else
          resolveLoop sch (pairUp parts) model modelName modelName field joins

/-- The requested-return-fields loop of `Fakegrid._resolve_fields`
(`fakegrid.py` lines 861-871): each field is resolved against the model,
and a `Fault` is caught and the field skipped (`except Fault: continue`);
any other exception propagates.  Returns the resolved
`(requested, alias entity, field, parent alias entity)` tuples and the
accumulated joins. -/
def resolveFieldsList (sch : Schema) (modelName : String) :
    List String → List JoinRec →
      Except Err (List (String × String × String × String) × List JoinRec)
  | [], joins => .ok ([], joins)
  | f :: rest, joins =>
    match resolveDottedField sch modelName f joins with
    | .error (.fault _) => resolveFieldsList sch modelName rest joins
    | .error e => .error e
    | .ok (joins2, aliasEnt, fieldName, parentAlias) =>
      match resolveFieldsList sch modelName rest joins2 with
      | .error e => .error e
      | .ok (fs, joins3) =>
        .ok ((f, aliasEnt, fieldName, parentAlias) :: fs, joins3)

/-! ## The filter walker `Fakegrid._build_wheres_and_joins` -/

/-- A filter expression at the query boundary: a leaf
`[field, operator, *values]`, a dict
`{"filter_operator": ..., "filters": [...]}`, or a bare list of
sub-filters. -/
inductive FilterExpr where
  | leaf (field operator : String) (values : List PyVal)
  | group (filterOperator : String) (filters : List FilterExpr)
  | flist (filters : List FilterExpr)

mutual

/-- `Fakegrid._build_wheres_and_joins(entity_type, filters)`; the joins
half of its return value is omitted because no code path ever appends to
it. -/
def buildWheres (sch : Schema) (now : DT) (fuel : Nat) (entityType : String) :
    FilterExpr → Except Err (List Clause)
  | .flist [] => .ok []
  | .flist (f :: fs) => buildGroup sch now fuel entityType "all" (f :: fs)
  | .group _ [] => .ok []
  | .group fo (f :: fs) => buildGroup sch now fuel entityType fo (f :: fs)
  | .leaf field operator values =>
    (applyOperator sch now fuel field entityType operator values).map
      (fun c => [c])

def buildGroup (sch : Schema) (now : DT) (fuel : Nat) (entityType fo : String) :
    List FilterExpr → Except Err (List Clause)
  | fs =>
    match buildWheresList sch now fuel entityType fs with
    | .error e => .error e
    | .ok group =>
      if group.length == 1 then .ok group
      else if fo == "all" then .ok [Clause.andN group]
      else if fo == "any" then .ok [Clause.orN group]
      else .error (.notImplemented ("Unsupported filter_operator: " ++ fo))

def buildWheresList (sch : Schema) (now : DT) (fuel : Nat)
    (entityType : String) : List FilterExpr → Except Err (List Clause)
  | [] => .ok []
  | f :: fs =>
    match buildWheres sch now fuel entityType f with
    | .error e => .error e
    | .ok ws =>
      match buildWheresList sch now fuel entityType fs with
      | .error e => .error e
      | .ok rest => .ok (ws ++ rest)

end

/-! ## A concrete schema instance for witnesses and counterexamples

A small resolved schema of the shape the relationship resolver produces:
`Project.users` is a multi-entity field through the connection entity
`ProjectUserConnection` (endpoint fields `project` and `user`), and
`Version.sg_task.Task.step.Step` is a single-entity chain. -/

def fld (ent name : String) (ft : FieldTy) : SgField :=
  { entity := ent, api_name := name, field_type := ft }

def projectEntity : EntityDesc :=
  { api_name := "Project"
    fields := [
      ("id", fld "Project" "id" .Number),
      ("code", fld "Project" "code" .Text),
      ("created_at", fld "Project" "created_at" .DateTime),
      ("filmstrip_image", fld "Project" "filmstrip_image" .Image),
      ("users", { fld "Project" "users" .MultiEntity with
        connection_entity := some ("ProjectUserConnection", "project") })] }

def humanUserEntity : EntityDesc :=
  { api_name := "HumanUser"
    fields := [
      ("id", fld "HumanUser" "id" .Number),
      ("name", fld "HumanUser" "name" .Text),
      ("projects", { fld "HumanUser" "projects" .MultiEntity with
        connection_entity := some ("ProjectUserConnection", "user") })] }

def projectUserConnEntity : EntityDesc :=
  { api_name := "ProjectUserConnection"
    fields := [
      ("id", fld "ProjectUserConnection" "id" .Number),
      ("project", fld "ProjectUserConnection" "project" .Entity),
      ("user", fld "ProjectUserConnection" "user" .Entity)] }

def versionEntity : EntityDesc :=
  { api_name := "Version"
    fields := [
      ("id", fld "Version" "id" .Number),
      ("code", fld "Version" "code" .Text),
      ("sg_task", fld "Version" "sg_task" .Entity)] }

def taskEntity : EntityDesc :=
  { api_name := "Task"
    fields := [
      ("id", fld "Task" "id" .Number),
      ("content", fld "Task" "content" .Text),
      ("step", fld "Task" "step" .Entity)] }

def stepEntity : EntityDesc :=
  { api_name := "Step"
    fields := [
      ("id", fld "Step" "id" .Number),
      ("code", fld "Step" "code" .Text)] }

def demoSchema : Schema := [
  ("Project", projectEntity),
  ("HumanUser", humanUserEntity),
  ("ProjectUserConnection", projectUserConnEntity),
  ("Version", versionEntity),
  ("Task", taskEntity),
  ("Step", stepEntity)]

/-- The injected clock value of `tests/test_time.py`
(`2021-03-01T09:00:00`). -/
def testNow : DT := ⟨2021, 3, 1, 9, 0, 0, 0⟩

/-- The six `created_at` values of `tests/test_time.py` /
spec §8, as Project rows. -/
def projRow (id : Int) (createdAt : DT) : Row :=
  [("id", some (.i id)), ("code", some (.s ("TP" ++ toString id))),
   ("created_at", some (.d createdAt))]

def projRow1 : Row := projRow 1 ⟨2020, 1, 1, 0, 0, 0, 0⟩
def projRow2 : Row := projRow 2 ⟨2021, 1, 1, 0, 0, 0, 0⟩
def projRow3 : Row := projRow 3 ⟨2021, 2, 1, 0, 0, 0, 0⟩
def projRow4 : Row := projRow 4 ⟨2021, 3, 1, 0, 0, 0, 0⟩
def projRow5 : Row := projRow 5 ⟨2021, 3, 1, 9, 0, 0, 0⟩
def projRow6 : Row := projRow 6 ⟨2021, 3, 1, 9, 30, 0, 0⟩

/-- A Project row whose nullable fields are all NULL. -/
def nullProjRow : Row := [("id", some (.i 7)), ("code", none),
  ("created_at", none)]

def connRow (id pid : Int) (uid : Int) : Row :=
  [("id", some (.i id)), ("project_id", some (.i pid)),
   ("project_type", some (.s "Project")), ("user_id", some (.i uid)),
   ("user_type", some (.s "HumanUser")), ("is_retired", some (.i 0))]

/-- Project 1 is linked to users 10 and 20 (in that order), project 2
to user 20 only, project 3 to nobody. -/
def demoDb : DB := [
  ("Project", [projRow1, projRow2, projRow3, projRow4, projRow5, projRow6]),
  ("ProjectUserConnection", [connRow 1 1 10, connRow 2 1 20, connRow 3 2 20]),
  ("HumanUser", [[("id", some (.i 10)), ("name", some (.s "Alice"))],
                 [("id", some (.i 20)), ("name", some (.s "Bob"))]])]

/-- A dotted path suffix consisting of single-entity hops ending in a
terminal field read, as seen by the `_resolve_dotted_field` loop: each
non-terminal pair is an `Entity`-typed field of the current entity with
a valid entity-type token, and the terminal pair is a bare field name
(no entity token) of any non-multi-entity type. -/
inductive EChain (sch : Schema) : EntityDesc → List (String × Option String) → Prop
  | terminal (e : EntityDesc) (f : String) (fs : SgField)
      (hf : e.field? f = some fs)
      (hft : fs.field_type ∉ [FieldTy.MultiEntity, FieldTy.Addressing,
        FieldTy.TagList]) :
      EChain sch e [(f, none)]
  | hop (e : EntityDesc) (f e2 : String) (fs : SgField) (d2 : EntityDesc)
      (rest : List (String × Option String))
      (hf : e.field? f = some fs)
      (hft : fs.field_type = FieldTy.Entity)
      (he2 : sch.entity? e2 = some d2)
      (hne : rest ≠ [])
      (hrest : EChain sch d2 rest) :
      EChain sch e ((f, some e2) :: rest)

/-- The clause `["users", "is", {"id": xid, "type": xty}]` compiles to
on a Project: an existence check over `ProjectUserConnection` rows
scoped by the project's id and literal type, with the inner `is`
comparison on the connection's `user` endpoint columns. -/
def usersIsClause (xid : Int) (xty : String) : Clause :=
  .cexists "ProjectUserConnection" (Clause.andN [
    .ceq (.col 0 "project_id") (.col 1 "id"),
    .ceq (.col 0 "project_type") (.lit (.s "Project")),
    Clause.andN [.ceq (.col 0 "user_id") (.lit (.i xid)),
      .ceq (.col 0 "user_type") (.lit (.s xty)),
      .cisNotNull (.col 0 "user_id"), .cisNotNull (.col 0 "user_type")]])

/-! ## Helper lemmas -/

theorem and3_eq_t_iff (a b : TV) : TV.and3 a b = .t ↔ a = .t ∧ b = .t := by
  cases a <;> cases b <;> simp [TV.and3]

theorem and3_f_right (a : TV) : TV.and3 a .f = .f := by
  cases a <;> rfl

theorem evalClause_andN_cons (db : DB) (stack : List Row) (c : Clause)
    (l : List Clause) :
    evalClause db stack (Clause.andN (c :: l)) =
      TV.and3 (evalClause db stack c) (evalClause db stack (Clause.andN l)) :=
  rfl

/-- A conjunction whose last conjunct is `IS NOT NULL` of a NULL term
evaluates to definite FALSE. -/
theorem evalClause_andN_notnull_f (db : DB) (stack : List Row) (t : Term)
    (h : evalTerm stack t = none) (l : List Clause) :
    evalClause db stack (Clause.andN (l ++ [Clause.cisNotNull t])) = .f := by
  induction l with
  | nil => simp [Clause.andN, evalClause, h, TV.and3]
  | cons c cs ih =>
    rw [List.cons_append, evalClause_andN_cons, ih, and3_f_right]

theorem cmpTV_eq_t_iff (f : SgValue → SgValue → Bool) (a b : Option SgValue) :
    cmpTV f a b = .t ↔ ∃ x y, a = some x ∧ b = some y ∧ f x y = true := by
  cases a <;> cases b
  case some.some x y =>
    simp only [cmpTV]
    split <;> simp_all
  all_goals simp [cmpTV]

theorem svLe_dt (a b : DT) : svLe (.d a) (.d b) = DT.leb a b := by
  simp only [svLe, svLt, DT.leb]
  by_cases h : a = b
  · subst h; simp
  · have h1 : (SgValue.d a == SgValue.d b) = false := by
      simp [beq_eq_false_iff_ne, h]
    have h2 : (a == b) = false := by simp [beq_eq_false_iff_ne, h]
    rw [h1, h2]

/-! ## Claims -/

/-- C1: for every field type, operators outside the allow-list raise
`UnsupportedOperator` naming the valid set — but the second half of the
claim fails: `in_calendar_year` is in the `date_time` allow-list (and
exercised by `tests/test_time.py`), yet `_apply_operator` has no branch
for it and raises `NotImplementedError` instead of compiling. -/
theorem c1_in_calendar_year_allowed_but_not_implemented :
    "in_calendar_year" ∈ (allowedOps FieldTy.DateTime).getD [] ∧
    applyOperator demoSchema testNow 5 "created_at" "Project"
        "in_calendar_year" [.int 0] =
      .error (.notImplemented "Unsupported operator: in_calendar_year") ∧
    applyOperator demoSchema testNow 5 "created_at" "Project"
        "starts_with" [.str "x"] =
      .error (.fault (unsupportedOpMsg "Project" "created_at" "date_time"
        "starts_with" ((allowedOps FieldTy.DateTime).getD []))) :=
  ⟨by decide, rfl, rfl⟩

/-- C2: every negative operator (`is_not`, `not_in`, `not_contains`,
`not_between`, `type_is_not`, `name_not_contains`, `not_in_next`,
`not_in_last`) compiles to exactly `NOT` of its positive counterpart's
compiled predicate, hence evaluates to its Kleene negation on every
database and row — for every schema, clock, field (dotted or not) and
value, including null. -/
theorem c2_negative_is_not_of_positive (sch : Schema) (now : DT) (fuel : Nat)
    (field modelName op pos : String) (value : List PyVal) (cn cp : Clause)
    (hmap : negOf op = some pos)
    (hn : applyOperator sch now (fuel + 1) field modelName op value = .ok cn)
    (hp : applyOperator sch now fuel field modelName pos value = .ok cp) :
    cn = .lnot cp ∧
      ∀ (db : DB) (stack : List Row),
        evalClause db stack cn = TV.not3 (evalClause db stack cp) := by
  rw [applyOperator] at hn
  simp only [hmap, hp, Except.map] at hn
  cases hn
  exact ⟨rfl, fun db stack => rfl⟩

/-- Witness for C2 at `["code", "is_not", "x"]` against the demo
schema. -/
theorem c2_negative_is_not_of_positive_witness :
    negOf "is_not" = some "is" ∧
    applyOperator demoSchema testNow 4 "code" "Project" "is_not" [.str "x"] =
      .ok (.lnot (.land (.ceq (.col 0 "code") (.lit (.s "x")))
        (.land (.cisNotNull (.col 0 "code")) .tru))) ∧
    applyOperator demoSchema testNow 3 "code" "Project" "is" [.str "x"] =
      .ok (.land (.ceq (.col 0 "code") (.lit (.s "x")))
        (.land (.cisNotNull (.col 0 "code")) .tru)) ∧
    ((.lnot (.land (.ceq (.col 0 "code") (.lit (.s "x")))
        (.land (.cisNotNull (.col 0 "code")) .tru)) : Clause) =
      .lnot (.land (.ceq (.col 0 "code") (.lit (.s "x")))
        (.land (.cisNotNull (.col 0 "code")) .tru)) ∧
      ∀ (db : DB) (stack : List Row),
        evalClause db stack (.lnot (.land (.ceq (.col 0 "code")
            (.lit (.s "x"))) (.land (.cisNotNull (.col 0 "code")) .tru))) =
          TV.not3 (evalClause db stack (.land (.ceq (.col 0 "code")
            (.lit (.s "x"))) (.land (.cisNotNull (.col 0 "code")) .tru)))) :=
  ⟨rfl, rfl, rfl,
    c2_negative_is_not_of_positive demoSchema testNow 3 "code" "Project"
      "is_not" "is" [.str "x"] _ _ rfl rfl rfl⟩

/-- C3: the claim says relative-date intervals are computed from an
injected clock.  They are not: the interval is anchored at the ambient
wall-clock reading (`datetime.datetime.utcnow()`), which is the `now`
parameter of the embedding; nothing in `src/` reads the `_now_function`
attribute the tests inject.  Compiling the test suite's
`["created_at", "in_last", 1, "HOUR"]` under a wall clock of
2023-06-15T12:00 produces a different predicate than under the intended
injected now 2021-03-01T09:00, and it rejects the row the test expects
(`found_ids == [5]`). -/
theorem c3_interval_uses_wall_clock_not_injected_now :
    applyOperator demoSchema ⟨2023, 6, 15, 12, 0, 0, 0⟩ 5 "created_at"
        "Project" "in_last" [.int 1, .str "HOUR"] =
      .ok (Clause.andN [
        .cge (.col 0 "created_at") (.lit (.d ⟨2023, 6, 15, 11, 0, 0, 0⟩)),
        .cle (.col 0 "created_at") (.lit (.d ⟨2023, 6, 15, 12, 0, 0, 0⟩)),
        .cisNotNull (.col 0 "created_at")]) ∧
    ¬ satisfies demoDb projRow5 (Clause.andN [
        .cge (.col 0 "created_at") (.lit (.d ⟨2023, 6, 15, 11, 0, 0, 0⟩)),
        .cle (.col 0 "created_at") (.lit (.d ⟨2023, 6, 15, 12, 0, 0, 0⟩)),
        .cisNotNull (.col 0 "created_at")]) ∧
    applyOperator demoSchema testNow 5 "created_at" "Project" "in_last"
        [.int 1, .str "HOUR"] =
      .ok (Clause.andN [
        .cge (.col 0 "created_at") (.lit (.d ⟨2021, 3, 1, 8, 0, 0, 0⟩)),
        .cle (.col 0 "created_at") (.lit (.d ⟨2021, 3, 1, 9, 0, 0, 0⟩)),
        .cisNotNull (.col 0 "created_at")]) ∧
    satisfies demoDb projRow5 (Clause.andN [
        .cge (.col 0 "created_at") (.lit (.d ⟨2021, 3, 1, 8, 0, 0, 0⟩)),
        .cle (.col 0 "created_at") (.lit (.d ⟨2021, 3, 1, 9, 0, 0, 0⟩)),
        .cisNotNull (.col 0 "created_at")]) ∧
    (Clause.andN [
        .cge (.col 0 "created_at") (.lit (.d ⟨2023, 6, 15, 11, 0, 0, 0⟩)),
        .cle (.col 0 "created_at") (.lit (.d ⟨2023, 6, 15, 12, 0, 0, 0⟩)),
        .cisNotNull (.col 0 "created_at")]) ≠
      (Clause.andN [
        .cge (.col 0 "created_at") (.lit (.d ⟨2021, 3, 1, 8, 0, 0, 0⟩)),
        .cle (.col 0 "created_at") (.lit (.d ⟨2021, 3, 1, 9, 0, 0, 0⟩)),
        .cisNotNull (.col 0 "created_at")]) :=
  ⟨rfl, by decide, rfl, by decide, by decide⟩

/-- C4 counterexample: the claim says the `in_last` interval is
half-open, `(now - hours, now]`, with a row exactly at `now - hours`
excluded.  The compiled predicate uses `>=`, so with now =
2021-03-01T09:00, a Project row whose `created_at` is exactly
2021-03-01T08:00 = now - 1 HOUR satisfies `["created_at", "in_last", 1,
"HOUR"]`. -/
theorem c4_row_at_now_minus_hours_matches :
    applyOperator demoSchema testNow 5 "created_at" "Project" "in_last"
        [.int 1, .str "HOUR"] =
      .ok (Clause.andN [
        .cge (.col 0 "created_at") (.lit (.d ⟨2021, 3, 1, 8, 0, 0, 0⟩)),
        .cle (.col 0 "created_at") (.lit (.d ⟨2021, 3, 1, 9, 0, 0, 0⟩)),
        .cisNotNull (.col 0 "created_at")]) ∧
    satisfies demoDb (projRow 8 ⟨2021, 3, 1, 8, 0, 0, 0⟩)
      (Clause.andN [
        .cge (.col 0 "created_at") (.lit (.d ⟨2021, 3, 1, 8, 0, 0, 0⟩)),
        .cle (.col 0 "created_at") (.lit (.d ⟨2021, 3, 1, 9, 0, 0, 0⟩)),
        .cisNotNull (.col 0 "created_at")]) :=
  ⟨rfl, by decide⟩

/-- C4 (amended): `in_last (amount, unit)` converts to hours with the
fixed multipliers HOUR=1, DAY=24, WEEK=168, MONTH=720, YEAR=8760 and
compiles to the **closed** interval `[now - hours, now]` anchored at the
compile-time clock reading: a row exactly at `now - hours` is included
(the claim said excluded), a row exactly at `now` is included, and a
NULL timestamp never matches. -/
theorem c4_in_last_closed_interval (now : DT) (sqlField : Term) (n : Int)
    (unit : String) (h : unit ∈ inLastUnits) (c : Clause)
    (hc : scalarLeaf now sqlField "in_last" [.int n, .str unit] = .ok c) :
    c = Clause.andN [
        .cge sqlField (.lit (.d (now.addHours (-(hoursOf n unit))))),
        .cle sqlField (.lit (.d now)), .cisNotNull sqlField] ∧
    (hoursOf n "HOUR" = n ∧ hoursOf n "DAY" = 24 * n ∧
      hoursOf n "WEEK" = 168 * n ∧ hoursOf n "MONTH" = 720 * n ∧
      hoursOf n "YEAR" = 8760 * n) ∧
    (∀ (db : DB) (stack : List Row), evalTerm stack sqlField = none →
      evalClause db stack c = .f) ∧
    (∀ (db : DB) (stack : List Row) (ts : DT),
      evalTerm stack sqlField = some (.d ts) →
      (evalClause db stack c = .t ↔
        (DT.leb (now.addHours (-(hoursOf n unit))) ts = true ∧
          DT.leb ts now = true))) := by
  have hs : scalarLeaf now sqlField "in_last" [.int n, .str unit] =
      .ok (Clause.andN [
        .cge sqlField (.lit (.d (now.addHours (-(hoursOf n unit))))),
        .cle sqlField (.lit (.d now)), .cisNotNull sqlField]) := by
    fin_cases h <;> rfl
  rw [hs] at hc
  cases hc
  refine ⟨rfl, ⟨rfl, by simp [hoursOf]; ring, by simp [hoursOf]; ring,
    by simp [hoursOf]; ring, by simp [hoursOf]; ring⟩, ?_, ?_⟩
  · intro db stack hnull
    exact evalClause_andN_notnull_f db stack sqlField hnull
      [.cge sqlField (.lit (.d (now.addHours (-(hoursOf n unit))))),
        .cle sqlField (.lit (.d now))]
  · intro db stack ts hts
    simp only [Clause.andN, List.foldr, evalClause]
    simp only [hts]
    simp only [evalTerm, cmpTV, svLe_dt]
    by_cases h1 : DT.leb (now.addHours (-(hoursOf n unit))) ts = true <;>
      by_cases h2 : DT.leb ts now = true <;>
      simp [h1, h2, TV.and3]

/-- Witness for C4 at `in_last 1 DAY` under the test clock. -/
theorem c4_in_last_closed_interval_witness :
    "DAY" ∈ inLastUnits ∧
    scalarLeaf testNow (.col 0 "created_at") "in_last" [.int 1, .str "DAY"] =
      .ok (Clause.andN [
        .cge (.col 0 "created_at") (.lit (.d ⟨2021, 2, 28, 9, 0, 0, 0⟩)),
        .cle (.col 0 "created_at") (.lit (.d ⟨2021, 3, 1, 9, 0, 0, 0⟩)),
        .cisNotNull (.col 0 "created_at")]) ∧
    (Clause.andN [
        .cge (.col 0 "created_at") (.lit (.d ⟨2021, 2, 28, 9, 0, 0, 0⟩)),
        .cle (.col 0 "created_at") (.lit (.d ⟨2021, 3, 1, 9, 0, 0, 0⟩)),
        .cisNotNull (.col 0 "created_at")] =
      Clause.andN [
        .cge (.col 0 "created_at")
          (.lit (.d (testNow.addHours (-(hoursOf 1 "DAY"))))),
        .cle (.col 0 "created_at") (.lit (.d testNow)),
        .cisNotNull (.col 0 "created_at")] ∧
      (hoursOf 1 "HOUR" = 1 ∧ hoursOf 1 "DAY" = 24 * 1 ∧
        hoursOf 1 "WEEK" = 168 * 1 ∧ hoursOf 1 "MONTH" = 720 * 1 ∧
        hoursOf 1 "YEAR" = 8760 * 1) ∧
      (∀ (db : DB) (stack : List Row),
        evalTerm stack (.col 0 "created_at") = none →
        evalClause db stack (Clause.andN [
          .cge (.col 0 "created_at") (.lit (.d ⟨2021, 2, 28, 9, 0, 0, 0⟩)),
          .cle (.col 0 "created_at") (.lit (.d ⟨2021, 3, 1, 9, 0, 0, 0⟩)),
          .cisNotNull (.col 0 "created_at")]) = .f) ∧
      (∀ (db : DB) (stack : List Row) (ts : DT),
        evalTerm stack (.col 0 "created_at") = some (.d ts) →
        (evalClause db stack (Clause.andN [
            .cge (.col 0 "created_at") (.lit (.d ⟨2021, 2, 28, 9, 0, 0, 0⟩)),
            .cle (.col 0 "created_at") (.lit (.d ⟨2021, 3, 1, 9, 0, 0, 0⟩)),
            .cisNotNull (.col 0 "created_at")]) = .t ↔
          (DT.leb (testNow.addHours (-(hoursOf 1 "DAY"))) ts = true ∧
            DT.leb ts testNow = true)))) :=
  ⟨by decide, rfl,
    c4_in_last_closed_interval testNow (.col 0 "created_at") 1 "DAY"
      (by decide) _ rfl⟩

/-- C5: `in_calendar_month` behaves as the claim describes at the spec's
concrete example (now = 2021-03-01T09:00: offset 0 is the inclusive
March 2021 interval matching exactly the three March rows, offset -1 the
February 2021 interval matching only the 2021-02-01 row) — but the
general claim is broken in the code: an offset that crosses a year
boundary computes `month = now.month + offset` without wrapping and
`datetime.replace` raises `ValueError`, and the end-of-month day is
`calendar.monthrange(month, month)[1]`, passing the month as the year,
so February of a leap year is cut at day 28 and a 2024-02-29 row is
wrongly excluded. -/
theorem c5_in_calendar_month_evaluation :
    (applyOperator demoSchema testNow 5 "created_at" "Project"
        "in_calendar_month" [.int 0] =
      .ok (Clause.andN [
        .cbetween (.col 0 "created_at")
          (.lit (.d ⟨2021, 3, 1, 0, 0, 0, 0⟩))
          (.lit (.d ⟨2021, 3, 31, 23, 59, 59, 999999⟩)),
        .cisNotNull (.col 0 "created_at")]) ∧
      satisfies demoDb projRow4 (Clause.andN [
        .cbetween (.col 0 "created_at")
          (.lit (.d ⟨2021, 3, 1, 0, 0, 0, 0⟩))
          (.lit (.d ⟨2021, 3, 31, 23, 59, 59, 999999⟩)),
        .cisNotNull (.col 0 "created_at")]) ∧
      satisfies demoDb projRow5 (Clause.andN [
        .cbetween (.col 0 "created_at")
          (.lit (.d ⟨2021, 3, 1, 0, 0, 0, 0⟩))
          (.lit (.d ⟨2021, 3, 31, 23, 59, 59, 999999⟩)),
        .cisNotNull (.col 0 "created_at")]) ∧
      satisfies demoDb projRow6 (Clause.andN [
        .cbetween (.col 0 "created_at")
          (.lit (.d ⟨2021, 3, 1, 0, 0, 0, 0⟩))
          (.lit (.d ⟨2021, 3, 31, 23, 59, 59, 999999⟩)),
        .cisNotNull (.col 0 "created_at")]) ∧
      ¬ satisfies demoDb projRow3 (Clause.andN [
        .cbetween (.col 0 "created_at")
          (.lit (.d ⟨2021, 3, 1, 0, 0, 0, 0⟩))
          (.lit (.d ⟨2021, 3, 31, 23, 59, 59, 999999⟩)),
        .cisNotNull (.col 0 "created_at")])) ∧
    (applyOperator demoSchema testNow 5 "created_at" "Project"
        "in_calendar_month" [.int (-1)] =
      .ok (Clause.andN [
        .cbetween (.col 0 "created_at")
          (.lit (.d ⟨2021, 2, 1, 0, 0, 0, 0⟩))
          (.lit (.d ⟨2021, 2, 28, 23, 59, 59, 999999⟩)),
        .cisNotNull (.col 0 "created_at")]) ∧
      satisfies demoDb projRow3 (Clause.andN [
        .cbetween (.col 0 "created_at")
          (.lit (.d ⟨2021, 2, 1, 0, 0, 0, 0⟩))
          (.lit (.d ⟨2021, 2, 28, 23, 59, 59, 999999⟩)),
        .cisNotNull (.col 0 "created_at")]) ∧
      ¬ satisfies demoDb projRow2 (Clause.andN [
        .cbetween (.col 0 "created_at")
          (.lit (.d ⟨2021, 2, 1, 0, 0, 0, 0⟩))
          (.lit (.d ⟨2021, 2, 28, 23, 59, 59, 999999⟩)),
        .cisNotNull (.col 0 "created_at")]) ∧
      ¬ satisfies demoDb projRow4 (Clause.andN [
        .cbetween (.col 0 "created_at")
          (.lit (.d ⟨2021, 2, 1, 0, 0, 0, 0⟩))
          (.lit (.d ⟨2021, 2, 28, 23, 59, 59, 999999⟩)),
        .cisNotNull (.col 0 "created_at")])) ∧
    applyOperator demoSchema ⟨2021, 1, 15, 0, 0, 0, 0⟩ 5 "created_at"
        "Project" "in_calendar_month" [.int (-1)] = .error .valueError ∧
    (applyOperator demoSchema ⟨2024, 2, 10, 0, 0, 0, 0⟩ 5 "created_at"
        "Project" "in_calendar_month" [.int 0] =
      .ok (Clause.andN [
        .cbetween (.col 0 "created_at")
          (.lit (.d ⟨2024, 2, 1, 0, 0, 0, 0⟩))
          (.lit (.d ⟨2024, 2, 28, 23, 59, 59, 999999⟩)),
        .cisNotNull (.col 0 "created_at")]) ∧
      ¬ satisfies demoDb (projRow 9 ⟨2024, 2, 29, 12, 0, 0, 0⟩)
        (Clause.andN [
          .cbetween (.col 0 "created_at")
            (.lit (.d ⟨2024, 2, 1, 0, 0, 0, 0⟩))
            (.lit (.d ⟨2024, 2, 28, 23, 59, 59, 999999⟩)),
          .cisNotNull (.col 0 "created_at")])) :=
  ⟨⟨rfl, by decide, by decide, by decide, by decide⟩,
    ⟨rfl, by decide, by decide, by decide⟩, rfl, ⟨rfl, by decide⟩⟩

/-! Shape lemmas: every successful scalar-branch compilation is a
conjunction ending in `IS NOT NULL` of the field column. -/

theorem scalarIs_shape (t : Term) (value : List PyVal) (c : Clause)
    (h : scalarIs t value = .ok c) :
    ∃ l, c = Clause.andN (l ++ [Clause.cisNotNull t]) := by
  delta scalarIs at h
  repeat' split at h
  all_goals try simp only [Bind.bind, Except.bind] at h
  all_goals repeat' split at h
  all_goals cases h
  all_goals exact ⟨[_], rfl⟩

theorem scalarIn_shape (t : Term) (value : List PyVal) (c : Clause)
    (h : scalarIn t value = .ok c) :
    ∃ l, c = Clause.andN (l ++ [Clause.cisNotNull t]) := by
  delta scalarIn at h
  repeat' split at h
  all_goals try simp only [Bind.bind, Except.bind] at h
  all_goals repeat' split at h
  all_goals cases h
  all_goals exact ⟨[_], rfl⟩

theorem scalarLessThan_shape (t : Term) (value : List PyVal) (c : Clause)
    (h : scalarLessThan t value = .ok c) :
    ∃ l, c = Clause.andN (l ++ [Clause.cisNotNull t]) := by
  delta scalarLessThan at h
  repeat' split at h
  all_goals try simp only [Bind.bind, Except.bind] at h
  all_goals repeat' split at h
  all_goals cases h
  all_goals exact ⟨[_], rfl⟩

theorem scalarGreaterThan_shape (t : Term) (value : List PyVal) (c : Clause)
    (h : scalarGreaterThan t value = .ok c) :
    ∃ l, c = Clause.andN (l ++ [Clause.cisNotNull t]) := by
  delta scalarGreaterThan at h
  repeat' split at h
  all_goals try simp only [Bind.bind, Except.bind] at h
  all_goals repeat' split at h
  all_goals cases h
  all_goals exact ⟨[_], rfl⟩

theorem scalarContains_shape (t : Term) (value : List PyVal) (c : Clause)
    (h : scalarContains t value = .ok c) :
    ∃ l, c = Clause.andN (l ++ [Clause.cisNotNull t]) := by
  delta scalarContains at h
  repeat' split at h
  all_goals cases h
  all_goals exact ⟨[_], rfl⟩

theorem scalarStartsWith_shape (t : Term) (value : List PyVal) (c : Clause)
    (h : scalarStartsWith t value = .ok c) :
    ∃ l, c = Clause.andN (l ++ [Clause.cisNotNull t]) := by
  delta scalarStartsWith at h
  repeat' split at h
  all_goals cases h
  all_goals exact ⟨[_], rfl⟩

theorem scalarEndsWith_shape (t : Term) (value : List PyVal) (c : Clause)
    (h : scalarEndsWith t value = .ok c) :
    ∃ l, c = Clause.andN (l ++ [Clause.cisNotNull t]) := by
  delta scalarEndsWith at h
  repeat' split at h
  all_goals cases h
  all_goals exact ⟨[_], rfl⟩

theorem scalarBetween_shape (t : Term) (value : List PyVal) (c : Clause)
    (h : scalarBetween t value = .ok c) :
    ∃ l, c = Clause.andN (l ++ [Clause.cisNotNull t]) := by
  delta scalarBetween at h
  simp only [] at h
  repeat' split at h
  all_goals try simp only [Bind.bind, Except.bind] at h
  all_goals repeat' split at h
  all_goals cases h
  all_goals exact ⟨[_], rfl⟩

theorem scalarInLast_shape (now : DT) (t : Term) (value : List PyVal)
    (c : Clause) (h : scalarInLast now t value = .ok c) :
    ∃ l, c = Clause.andN (l ++ [Clause.cisNotNull t]) := by
  delta scalarInLast at h
  repeat' split at h
  all_goals cases h
  all_goals exact ⟨[_, _], rfl⟩

theorem scalarInNext_shape (now : DT) (t : Term) (value : List PyVal)
    (c : Clause) (h : scalarInNext now t value = .ok c) :
    ∃ l, c = Clause.andN (l ++ [Clause.cisNotNull t]) := by
  delta scalarInNext at h
  repeat' split at h
  all_goals cases h
  all_goals exact ⟨[_, _], rfl⟩

theorem scalarInCalendarDay_shape (now : DT) (t : Term) (value : List PyVal)
    (c : Clause) (h : scalarInCalendarDay now t value = .ok c) :
    ∃ l, c = Clause.andN (l ++ [Clause.cisNotNull t]) := by
  delta scalarInCalendarDay at h
  simp only [] at h
  repeat' split at h
  all_goals cases h
  all_goals exact ⟨[_], rfl⟩

theorem scalarInCalendarWeek_shape (now : DT) (t : Term) (value : List PyVal)
    (c : Clause) (h : scalarInCalendarWeek now t value = .ok c) :
    ∃ l, c = Clause.andN (l ++ [Clause.cisNotNull t]) := by
  delta scalarInCalendarWeek at h
  simp only [] at h
  repeat' split at h
  all_goals cases h
  all_goals exact ⟨[_], rfl⟩

theorem scalarInCalendarMonth_shape (now : DT) (t : Term) (value : List PyVal)
    (c : Clause) (h : scalarInCalendarMonth now t value = .ok c) :
    ∃ l, c = Clause.andN (l ++ [Clause.cisNotNull t]) := by
  delta scalarInCalendarMonth at h
  simp only [] at h
  repeat' split at h
  all_goals cases h
  all_goals exact ⟨[_], rfl⟩

set_option maxHeartbeats 2000000 in
/-- Every clause the scalar leaf branch successfully compiles — any
operator, any value list — is a conjunction whose last conjunct is
`sql_field IS NOT NULL`. -/
theorem scalarLeaf_ok_shape (now : DT) (t : Term) (op : String)
    (value : List PyVal) (c : Clause)
    (h : scalarLeaf now t op value = .ok c) :
    ∃ l, c = Clause.andN (l ++ [Clause.cisNotNull t]) := by
  delta scalarLeaf at h
  by_cases h1 : (op == "is") = true
  · rw [if_pos h1] at h
    exact scalarIs_shape _ _ _ h
  rw [if_neg h1] at h
  by_cases h2 : (op == "in") = true
  · rw [if_pos h2] at h
    exact scalarIn_shape _ _ _ h
  rw [if_neg h2] at h
  by_cases h3 : (op == "less_than") = true
  · rw [if_pos h3] at h
    exact scalarLessThan_shape _ _ _ h
  rw [if_neg h3] at h
  by_cases h4 : (op == "greater_than") = true
  · rw [if_pos h4] at h
    exact scalarGreaterThan_shape _ _ _ h
  rw [if_neg h4] at h
  by_cases h5 : (op == "contains") = true
  · rw [if_pos h5] at h
    exact scalarContains_shape _ _ _ h
  rw [if_neg h5] at h
  by_cases h6 : (op == "starts_with") = true
  · rw [if_pos h6] at h
    exact scalarStartsWith_shape _ _ _ h
  rw [if_neg h6] at h
  by_cases h7 : (op == "ends_with") = true
  · rw [if_pos h7] at h
    exact scalarEndsWith_shape _ _ _ h
  rw [if_neg h7] at h
  by_cases h8 : (op == "between") = true
  · rw [if_pos h8] at h
    exact scalarBetween_shape _ _ _ h
  rw [if_neg h8] at h
  by_cases h9 : (op == "in_last") = true
  · rw [if_pos h9] at h
    exact scalarInLast_shape _ _ _ _ h
  rw [if_neg h9] at h
  by_cases h10 : (op == "in_next") = true
  · rw [if_pos h10] at h
    exact scalarInNext_shape _ _ _ _ h
  rw [if_neg h10] at h
  by_cases h11 : (op == "in_calendar_day") = true
  · rw [if_pos h11] at h
    exact scalarInCalendarDay_shape _ _ _ _ h
  rw [if_neg h11] at h
  by_cases h12 : (op == "in_calendar_week") = true
  · rw [if_pos h12] at h
    exact scalarInCalendarWeek_shape _ _ _ _ h
  rw [if_neg h12] at h
  by_cases h13 : (op == "in_calendar_month") = true
  · rw [if_pos h13] at h
    exact scalarInCalendarMonth_shape _ _ _ _ h
  rw [if_neg h13] at h
  cases h

/-- C6 counterexample: the claim says a null row satisfies no leaf
predicate except `is`/`is_not` with a null value.  But
`["code", "is_not", "x"]` — a concrete, non-null value — compiles to
`NOT (code = "x" AND code IS NOT NULL)`, which is TRUE on a row whose
`code` is NULL. -/
theorem c6_is_not_concrete_matches_null_row :
    applyOperator demoSchema testNow 5 "code" "Project" "is_not" [.str "x"] =
      .ok (.lnot (.land (.ceq (.col 0 "code") (.lit (.s "x")))
        (.land (.cisNotNull (.col 0 "code")) .tru))) ∧
    satisfies demoDb nullProjRow
      (.lnot (.land (.ceq (.col 0 "code") (.lit (.s "x")))
        (.land (.cisNotNull (.col 0 "code")) .tru))) :=
  ⟨rfl, by decide⟩

/-- C6 (amended): (1) a NULL-valued row never satisfies any
positive-operator scalar leaf predicate (including `is` with a null
value, which on scalar columns compiles to the unsatisfiable
`code IS NULL AND code IS NOT NULL`); (2) an entity-field `is` with a
null value matches exactly the rows whose link is absent, and (3)
`is_not` with a null value exactly the rows whose link is present;
negative operators with concrete values, being `NOT` of a positive
predicate that is definite FALSE on null rows, do match null rows (the
counterexample). -/
theorem c6_null_safety_amended :
    (∀ (now : DT) (t : Term) (op : String) (value : List PyVal) (c : Clause),
      scalarLeaf now t op value = .ok c →
      ∀ (db : DB) (stack : List Row), evalTerm stack t = none →
        evalClause db stack c = .f) ∧
    (applyOperator demoSchema testNow 2 "sg_task" "Version" "is" [.none] =
      .ok (Clause.andN [.cisNull (.col 0 "sg_task_id"),
        .cisNull (.col 0 "sg_task_type")]) ∧
      ∀ (db : DB) (row : Row),
        (satisfies db row (Clause.andN [.cisNull (.col 0 "sg_task_id"),
          .cisNull (.col 0 "sg_task_type")]) ↔
        (row.get "sg_task_id" = none ∧ row.get "sg_task_type" = none))) ∧
    (applyOperator demoSchema testNow 3 "sg_task" "Version" "is_not" [.none] =
      .ok (.lnot (Clause.andN [.cisNull (.col 0 "sg_task_id"),
        .cisNull (.col 0 "sg_task_type")])) ∧
      ∀ (db : DB) (row : Row),
        (satisfies db row (.lnot (Clause.andN [.cisNull (.col 0 "sg_task_id"),
          .cisNull (.col 0 "sg_task_type")])) ↔
        ¬ (row.get "sg_task_id" = none ∧ row.get "sg_task_type" = none))) := by
  refine ⟨?_, ⟨rfl, ?_⟩, ⟨rfl, ?_⟩⟩
  · intro now t op value c h db stack hnull
    obtain ⟨l, rfl⟩ := scalarLeaf_ok_shape now t op value c h
    exact evalClause_andN_notnull_f db stack t hnull l
  · intro db row
    cases h1 : row.get "sg_task_id" <;> cases h2 : row.get "sg_task_type" <;>
      simp [satisfies, Clause.andN, evalClause, evalTerm, h1, h2, TV.and3]
  · intro db row
    cases h1 : row.get "sg_task_id" <;> cases h2 : row.get "sg_task_type" <;>
      simp [satisfies, Clause.andN, evalClause, evalTerm, h1, h2, TV.and3,
        TV.not3]

/-- Witness for C6 at `["code", "contains", "x"]` on a NULL `code`. -/
theorem c6_null_safety_amended_witness :
    scalarLeaf testNow (.col 0 "code") "contains" [.str "x"] =
      .ok (Clause.andN [.clike (.col 0 "code") "%x%",
        .cisNotNull (.col 0 "code")]) ∧
    evalTerm [nullProjRow] (.col 0 "code") = none ∧
    evalClause demoDb [nullProjRow]
      (Clause.andN [.clike (.col 0 "code") "%x%",
        .cisNotNull (.col 0 "code")]) = .f :=
  ⟨rfl, rfl,
    c6_null_safety_amended.1 testNow (.col 0 "code") "contains" [.str "x"]
      _ rfl demoDb [nullProjRow] rfl⟩

theorem evalClause_land (db : DB) (st : List Row) (a b : Clause) :
    evalClause db st (.land a b) =
      TV.and3 (evalClause db st a) (evalClause db st b) := rfl

theorem evalClause_ceq (db : DB) (st : List Row) (a b : Term) :
    evalClause db st (.ceq a b) =
      cmpTV (fun x y => x == y) (evalTerm st a) (evalTerm st b) := rfl

theorem evalClause_tru (db : DB) (st : List Row) :
    evalClause db st .tru = .t := rfl

theorem cmpTV_beq_eq_t_iff (a b : Option SgValue) :
    cmpTV (fun x y => x == y) a b = .t ↔ ∃ v, a = some v ∧ b = some v := by
  rw [cmpTV_eq_t_iff]
  constructor
  · rintro ⟨x, y, hx, hy, hxy⟩
    exact ⟨x, hx, by rw [hy, (eq_of_beq hxy)]⟩
  · rintro ⟨v, ha, hb⟩
    exact ⟨v, v, ha, hb, by simp⟩

/-- SQL `EXISTS` is definitely true exactly when some row of the table
makes the (correlated) inner clause definitely true. -/
theorem evalClause_cexists_eq_t (db : DB) (stack : List Row) (table : String)
    (inner : Clause) :
    evalClause db stack (.cexists table inner) = .t ↔
      ∃ r ∈ db.rows table, evalClause db (r :: stack) inner = .t := by
  simp only [evalClause]
  split <;> rename_i hcond <;> simp_all [List.any_eq_true]

theorem evalClause_cisNotNull_eq_t (db : DB) (st : List Row) (t : Term) :
    evalClause db st (.cisNotNull t) = .t ↔ (evalTerm st t).isSome = true := by
  cases h : evalTerm st t <;> simp [evalClause, h]

/-- C7: a multi-entity `is X` filter compiles to an existence check over
connection rows scoped by the owning row's id and literal type name, so
a row matches iff X is among its linked entities — contains semantics.
On the demo store, user 20 is project 1's second linked user and project
2's only linked user, and both projects match while the user-less
project 3 does not; project 1 also matches for its first user 10. -/
theorem c7_multi_entity_is_contains :
    (∀ (xid : Int) (xty : String),
      applyOperator demoSchema testNow 2 "users" "Project" "is"
          [.ent xid xty] = .ok (usersIsClause xid xty) ∧
      ∀ (db : DB) (row : Row),
        satisfies db row (usersIsClause xid xty) ↔
          ∃ cr ∈ db.rows "ProjectUserConnection",
            (∃ pid, cr.get "project_id" = some pid ∧
              row.get "id" = some pid) ∧
            cr.get "project_type" = some (.s "Project") ∧
            cr.get "user_id" = some (.i xid) ∧
            cr.get "user_type" = some (.s xty)) ∧
    satisfies demoDb projRow1 (usersIsClause 20 "HumanUser") ∧
    satisfies demoDb projRow2 (usersIsClause 20 "HumanUser") ∧
    ¬ satisfies demoDb projRow3 (usersIsClause 20 "HumanUser") ∧
    satisfies demoDb projRow1 (usersIsClause 10 "HumanUser") ∧
    ¬ satisfies demoDb projRow2 (usersIsClause 10 "HumanUser") := by
  refine ⟨fun xid xty => ⟨rfl, fun db row => ?_⟩,
    by decide, by decide, by decide, by decide, by decide⟩
  unfold satisfies usersIsClause
  rw [evalClause_cexists_eq_t]
  apply exists_congr
  intro cr
  refine and_congr_right (fun _ => ?_)
  simp only [Clause.andN, List.foldr, evalClause_land, and3_eq_t_iff,
    evalClause_ceq, evalClause_tru, cmpTV_beq_eq_t_iff,
    evalClause_cisNotNull_eq_t, evalTerm, List.get?, Option.some.injEq,
    Option.isSome_iff_exists]
  aesop

/-- The `_resolve_dotted_field` loop on a pure single-entity chain:
each non-terminal hop contributes exactly one entity join, the terminal
pair contributes none (whether the terminal field is scalar or itself a
single-entity link), so a chain of N fields yields exactly N-1 joins and
a terminal read of the last field name. -/
theorem resolveLoop_entity_chain (sch : Schema) :
    ∀ (pairs : List (String × Option String)) (e : EntityDesc)
      (prev par fv : String) (joins : List JoinRec),
      EChain sch e pairs → sch.entity? prev = some e →
      ∃ js prevOut fOut parOut,
        resolveLoop sch pairs e prev par fv joins =
          .ok (joins ++ js, prevOut, fOut, parOut) ∧
        js.length = pairs.length - 1 ∧
        (∀ j ∈ js, j.kind = JoinKind.entity) ∧
        pairs.getLast? = some (fOut, none) := by
  intro pairs e prev par fv joins hchain
  induction hchain generalizing prev par fv joins with
  | terminal e f fs hf hft =>
    intro hlk
    refine ⟨[], prev, f, par, ?_, rfl, by simp, rfl⟩
    have hMne : fs.field_type ≠ FieldTy.MultiEntity := by
      intro hx; exact hft (by simp [hx])
    have hM : (fs.field_type == FieldTy.MultiEntity) = false := by
      simp [beq_eq_false_iff_ne, hMne]
    by_cases hE : fs.field_type = FieldTy.Entity
    · simp [resolveLoop, hf, hlk, hE]
    · have hE2 : (fs.field_type == FieldTy.Entity) = false := by simp [hE]
      simp [resolveLoop, hf, hlk, hE2, hM]
  | hop e f e2 fs d2 rest hf hft he2 hne hrest ih =>
    intro hlk
    obtain ⟨js', p', f', par', hres, hlen, hkinds, hlast⟩ :=
      ih e2 prev f (joins ++ [⟨.entity, e2, f⟩]) he2
    refine ⟨⟨.entity, e2, f⟩ :: js', p', f', par', ?_, ?_, ?_, ?_⟩
    · have hres2 : resolveLoop sch ((f, some e2) :: rest) e prev par fv joins =
          resolveLoop sch rest d2 e2 prev f (joins ++ [⟨.entity, e2, f⟩]) := by
        have hne2 : rest.isEmpty = false := by
          cases rest
          · exact absurd rfl hne
          · rfl
        simp [resolveLoop, hf, hft, he2, hne2]
      rw [hres2, hres]
      simp
    · simp only [List.length_cons]
      have : rest.length ≠ 0 := fun h0 => hne (List.eq_nil_of_length_eq_zero h0)
      omega
    · intro j hj
      rcases List.mem_cons.1 hj with h | h
      · rw [h]
      · exact hkinds j h
    · cases rest
      · exact absurd rfl hne
      · rw [List.getLast?_cons_cons]
        exact hlast

/-- The `_resolve_dotted_field` loop on a bare terminal multi-entity
field with a connection entity: the plan stops at the connection-entity
join, the returned alias is the connection entity itself, and the
returned field is the connection's opposite-endpoint field name (whose
`_id`/`_type`/`_name` shadow columns `find` then reads directly from the
connection row). -/
theorem resolveLoop_multi_terminal (sch : Schema) (e connEnt pe : EntityDesc)
    (mf prev par fv connEntName connFieldName : String)
    (fs connField opp : SgField) (joins : List JoinRec)
    (hf : e.field? mf = some fs)
    (hft : fs.field_type = FieldTy.MultiEntity)
    (hconn : fs.connection_entity = some (connEntName, connFieldName))
    (hce : sch.entity? connEntName = some connEnt)
    (hcf : connEnt.field? connFieldName = some connField)
    (hopp : connectionQueryTargetField sch connField = some opp)
    (hprev : sch.entity? prev = some pe) :
    resolveLoop sch [(mf, none)] e prev par fv joins =
      .ok (joins ++ [⟨.connParent, connEntName, connFieldName⟩],
        connEntName, opp.api_name, prev) := by
  have hE : (fs.field_type == FieldTy.Entity) = false := by
    simp [hft, beq_eq_false_iff_ne]
  simp [resolveLoop, hf, hE, hft, hconn, hce, hcf, hopp, hprev]

/-- C8: (1) a dotted path of N single-entity hops resolves to exactly
N-1 entity joins plus a terminal read of the final field; (2) a bare
terminal multi-entity field stops at the connection-entity join, reading
the opposite endpoint's columns from the connection row instead of
joining the target entity; on the demo schema,
`sg_task.Task.step.Step.id` (3 fields) yields exactly the 2 joins
Task and Step, a bare terminal `sg_task` yields no join, and a bare
`users` yields only the `ProjectUserConnection` join with terminal field
`user`. -/
theorem c8_dotted_path_join_plan :
    (∀ (pairs : List (String × Option String)) (e : EntityDesc)
      (prev par fv : String) (joins : List JoinRec),
      EChain demoSchema e pairs → demoSchema.entity? prev = some e →
      ∃ js prevOut fOut parOut,
        resolveLoop demoSchema pairs e prev par fv joins =
          .ok (joins ++ js, prevOut, fOut, parOut) ∧
        js.length = pairs.length - 1 ∧
        (∀ j ∈ js, j.kind = JoinKind.entity) ∧
        pairs.getLast? = some (fOut, none)) ∧
    (∀ (e connEnt pe : EntityDesc)
      (mf prev par fv connEntName connFieldName : String)
      (fs connField opp : SgField) (joins : List JoinRec),
      e.field? mf = some fs →
      fs.field_type = FieldTy.MultiEntity →
      fs.connection_entity = some (connEntName, connFieldName) →
      demoSchema.entity? connEntName = some connEnt →
      connEnt.field? connFieldName = some connField →
      connectionQueryTargetField demoSchema connField = some opp →
      demoSchema.entity? prev = some pe →
      resolveLoop demoSchema [(mf, none)] e prev par fv joins =
        .ok (joins ++ [⟨.connParent, connEntName, connFieldName⟩],
          connEntName, opp.api_name, prev)) ∧
    resolveDottedField demoSchema "Version" "sg_task.Task.step.Step.id" [] =
      .ok ([⟨.entity, "Task", "sg_task"⟩, ⟨.entity, "Step", "step"⟩],
        "Step", "id", "Task") ∧
    resolveDottedField demoSchema "Version" "sg_task" [] =
      .ok ([], "Version", "sg_task", "Version") ∧
    resolveDottedField demoSchema "Project" "users" [] =
      .ok ([⟨.connParent, "ProjectUserConnection", "project"⟩],
        "ProjectUserConnection", "user", "Project") :=
  ⟨resolveLoop_entity_chain demoSchema,
    fun e connEnt pe mf prev par fv cen cfn fs cf opp joins h1 h2 h3 h4 h5 h6
        h7 =>
      resolveLoop_multi_terminal demoSchema e connEnt pe mf prev par fv cen
        cfn fs cf opp joins h1 h2 h3 h4 h5 h6 h7,
    rfl, rfl, rfl⟩

/-- Witness for C8: the chain `sg_task.Task.step.Step.id` on `Version`
(3 field tokens) resolves through the loop to exactly 2 entity joins,
and the bare `users` field on `Project` stops at the connection join. -/
theorem c8_dotted_path_join_plan_witness :
    EChain demoSchema versionEntity
      [("sg_task", some "Task"), ("step", some "Step"), ("id", none)] ∧
    (∃ js prevOut fOut parOut,
      resolveLoop demoSchema
          [("sg_task", some "Task"), ("step", some "Step"), ("id", none)]
          versionEntity "Version" "Version" "sg_task.Task.step.Step.id" [] =
        .ok ([] ++ js, prevOut, fOut, parOut) ∧
      js.length =
        [("sg_task", some "Task"), ("step", some "Step"),
          ("id", none)].length - 1 ∧
      (∀ j ∈ js, j.kind = JoinKind.entity) ∧
      [("sg_task", some "Task"), ("step", some "Step"),
        ("id", none)].getLast? = some (fOut, none)) ∧
    resolveLoop demoSchema [("users", none)] projectEntity "Project"
        "Project" "users" [] =
      .ok ([] ++ [⟨.connParent, "ProjectUserConnection", "project"⟩],
        "ProjectUserConnection", "user", "Project") := by
  have hchain : EChain demoSchema versionEntity
      [("sg_task", some "Task"), ("step", some "Step"), ("id", none)] := by
    refine EChain.hop _ _ _ _ taskEntity _ rfl rfl rfl (by simp) ?_
    refine EChain.hop _ _ _ _ stepEntity _ rfl rfl rfl (by simp) ?_
    exact EChain.terminal _ "id" _ rfl (by decide)
  refine ⟨hchain, ?_, ?_⟩
  · exact c8_dotted_path_join_plan.1 _ versionEntity "Version" "Version"
      "sg_task.Task.step.Step.id" [] hchain rfl
  · exact c8_dotted_path_join_plan.2.1 projectEntity projectUserConnEntity
      projectEntity "users" "Project" "Project" "users"
      "ProjectUserConnection" "project"
      ({ fld "Project" "users" .MultiEntity with
        connection_entity := some ("ProjectUserConnection", "project") })
      (fld "ProjectUserConnection" "project" .Entity)
      (fld "ProjectUserConnection" "user" .Entity) [] rfl rfl rfl rfl rfl
      rfl rfl

/-- A leaf filter on a plain (non-link) known field reaches the leaf
dispatch of `_apply_operator`. -/
theorem applyOperator_leaf_step (sch : Schema) (now : DT) (fuel : Nat)
    (field modelName op : String) (value : List PyVal) (model : EntityDesc)
    (fs : SgField)
    (hneg : negOf op = none) (hdot : hasDot field = false)
    (hent : sch.entity? modelName = some model)
    (hf : model.field? field = some fs)
    (hm : fs.field_type ∉ [FieldTy.MultiEntity, FieldTy.Addressing,
      FieldTy.TagList]) :
    applyOperator sch now (fuel + 1) field modelName op value =
      leafDispatch now model (some fs) field op value := by
  rw [applyOperator]
  simp [hneg, hdot, hent, hf, hm]

/-- An unknown plain field name in a filter raises the Fault naming the
entity and field. -/
theorem applyOperator_unknown_field_fault (sch : Schema) (now : DT)
    (fuel : Nat) (field modelName op : String) (value : List PyVal)
    (model : EntityDesc)
    (hneg : negOf op = none) (hdot : hasDot field = false)
    (hent : sch.entity? modelName = some model)
    (hf : model.field? field = none)
    (hself : field ≠ "\x7bself\x7d") :
    applyOperator sch now (fuel + 1) field modelName op value =
      .error (.fault (faultNotExist modelName field)) := by
  rw [applyOperator]
  have hb : (field != "\x7bself\x7d") = true := bne_iff_ne.mpr hself
  simp [hneg, hdot, hent, hf, hb]

/-- `except Fault: continue`: a field whose resolution raises a Fault is
dropped from the requested-return-field resolution, leaving the rest of
the result unchanged. -/
theorem resolveFieldsList_skips_fault (sch : Schema) (modelName f : String)
    (rest : List String) (joins : List JoinRec) (m : String)
    (h : resolveDottedField sch modelName f joins = .error (.fault m)) :
    resolveFieldsList sch modelName (f :: rest) joins =
      resolveFieldsList sch modelName rest joins := by
  simp [resolveFieldsList, h]

/-- C9 counterexample: the claim says an unknown field name in a
requested return-field path is a fatal, surfaced error.  Resolving
`bogus` does raise a Fault, but `_resolve_fields` catches it
(`except Fault: continue`) and returns successfully with the field
silently dropped. -/
theorem c9_return_field_fault_swallowed :
    resolveDottedField demoSchema "Project" "bogus" [] =
      .error (.fault (faultNotExist "Project" "bogus")) ∧
    resolveFieldsList demoSchema "Project" ["bogus", "code"] [] =
      .ok ([("code", "Project", "code", "Project")], []) :=
  ⟨rfl, rfl⟩

/-- C9 (amended): resolution errors in a *filter* path are fatal and
surfaced to the caller naming the offending entity/field — an unknown
plain field (general statement), an unknown entity-type token, and a
non-link field followed by further segments all raise Faults that
propagate through `_build_wheres_and_joins`; but in a *requested
return-field* path, a Fault is caught by `_resolve_fields` and the field
is silently dropped (general statement). -/
theorem c9_filter_faults_fatal_return_fields_skipped :
    (∀ (sch : Schema) (now : DT) (fuel : Nat) (field modelName op : String)
      (value : List PyVal) (model : EntityDesc),
      negOf op = none → hasDot field = false →
      sch.entity? modelName = some model →
      model.field? field = none → field ≠ "\x7bself\x7d" →
      applyOperator sch now (fuel + 1) field modelName op value =
        .error (.fault (faultNotExist modelName field))) ∧
    (∀ (sch : Schema) (modelName f : String) (rest : List String)
      (joins : List JoinRec) (m : String),
      resolveDottedField sch modelName f joins = .error (.fault m) →
      resolveFieldsList sch modelName (f :: rest) joins =
        resolveFieldsList sch modelName rest joins) ∧
    buildWheres demoSchema testNow 5 "Project"
      (.flist [.leaf "bogus" "is" [.str "x"]]) =
      .error (.fault (faultNotExist "Project" "bogus")) ∧
    applyOperator demoSchema testNow 5 "sg_task.Bogus.id" "Version" "is"
      [.int 1] = .error (.fault (faultNotARelation "Version" "sg_task")) ∧
    applyOperator demoSchema testNow 5 "code.Project.id" "Project" "is"
      [.int 1] =
      .error (.fault (faultNotARelation "Project" "code.Project.id")) :=
  ⟨fun sch now fuel field modelName op value model h1 h2 h3 h4 h5 =>
      applyOperator_unknown_field_fault sch now fuel field modelName op value
        model h1 h2 h3 h4 h5,
    fun sch modelName f rest joins m h =>
      resolveFieldsList_skips_fault sch modelName f rest joins m h,
    by
      have h : applyOperator demoSchema testNow 5 "bogus" "Project" "is"
          [.str "x"] = .error (.fault (faultNotExist "Project" "bogus")) := rfl
      simp [buildWheres, buildGroup, buildWheresList, h, Except.map],
    rfl, rfl⟩

/-- Witness for C9 at the unknown field `bogus` on `Project`. -/
theorem c9_filter_faults_fatal_return_fields_skipped_witness :
    negOf "is" = none ∧ hasDot "bogus" = false ∧
    projectEntity.field? "bogus" = none ∧
    applyOperator demoSchema testNow 4 "bogus" "Project" "is" [.str "x"] =
      .error (.fault (faultNotExist "Project" "bogus")) ∧
    resolveFieldsList demoSchema "Project" ["bogus"] [] =
      resolveFieldsList demoSchema "Project" [] [] :=
  ⟨rfl, rfl, rfl,
    c9_filter_faults_fatal_return_fields_skipped.1 demoSchema testNow 3
      "bogus" "Project" "is" [.str "x"] projectEntity rfl rfl rfl rfl
      (by decide),
    c9_filter_faults_fatal_return_fields_skipped.2.1 demoSchema "Project"
      "bogus" [] [] (faultNotExist "Project" "bogus") rfl⟩

/-- After the allow-list check, `in`/`not_in` with a scalar first value
are rewritten to `is`/`is_not`, so both compilations coincide when the
allow-list admits both operators. -/
theorem leafDispatch_in_eq_is (now : DT) (model : EntityDesc) (fs : SgField)
    (field : String) (v : PyVal) (rest : List PyVal) (ops : List String)
    (hops : allowedOps fs.field_type = some ops)
    (hin : "in" ∈ ops) (his : "is" ∈ ops)
    (hv : v.isList = false) :
    leafDispatch now model (some fs) field "in" (v :: rest) =
      leafDispatch now model (some fs) field "is" (v :: rest) := by
  delta leafDispatch
  by_cases hign : fs.field_type ∈ ignoredTypes
  · simp [hign]
  · simp [hign, hops, hin, his, hv]

/-- C10 counterexample: the claim quantifies over *every* leaf filter
with a scalar-valued `in`.  On a field type whose allow-list lacks `in`
(here `image`, allowing only `is`/`is_not`), the legality check fires
*before* the scalar-`in` rewrite, so `["filmstrip_image", "in", "x"]`
raises `UnsupportedOperator` while `is` with the same value compiles. -/
theorem c10_in_scalar_on_image_raises :
    applyOperator demoSchema testNow 5 "filmstrip_image" "Project" "in"
      [.str "x"] =
      .error (.fault (unsupportedOpMsg "Project" "filmstrip_image" "image"
        "in" ["is", "is_not"])) ∧
    applyOperator demoSchema testNow 5 "filmstrip_image" "Project" "is"
      [.str "x"] =
      .ok (Clause.andN [.ceq (.col 0 "filmstrip_image") (.lit (.s "x")),
        .cisNotNull (.col 0 "filmstrip_image")]) :=
  ⟨rfl, rfl⟩

/-- C10 (amended): for every non-link leaf field whose type's allow-list
admits `in` (and `is`), a scalar first value makes `in` compile to
exactly the `is` predicate and `not_in` to exactly the `is_not`
predicate. -/
theorem c10_scalar_in_compiles_as_is (sch : Schema) (now : DT) (fuel : Nat)
    (field modelName : String) (model : EntityDesc) (fs : SgField)
    (v : PyVal) (rest : List PyVal) (ops : List String)
    (hdot : hasDot field = false)
    (hent : sch.entity? modelName = some model)
    (hf : model.field? field = some fs)
    (hm : fs.field_type ∉ [FieldTy.MultiEntity, FieldTy.Addressing,
      FieldTy.TagList])
    (hops : allowedOps fs.field_type = some ops)
    (hin : "in" ∈ ops) (his : "is" ∈ ops)
    (hv : v.isList = false) :
    (applyOperator sch now (fuel + 1) field modelName "in" (v :: rest) =
      applyOperator sch now (fuel + 1) field modelName "is" (v :: rest)) ∧
    (applyOperator sch now (fuel + 2) field modelName "not_in" (v :: rest) =
      applyOperator sch now (fuel + 2) field modelName "is_not"
        (v :: rest)) := by
  have hfirst :
      applyOperator sch now (fuel + 1) field modelName "in" (v :: rest) =
        applyOperator sch now (fuel + 1) field modelName "is" (v :: rest) := by
    rw [applyOperator_leaf_step sch now fuel field modelName "in" (v :: rest)
        model fs rfl hdot hent hf hm,
      applyOperator_leaf_step sch now fuel field modelName "is" (v :: rest)
        model fs rfl hdot hent hf hm]
    exact leafDispatch_in_eq_is now model fs field v rest ops hops hin his hv
  refine ⟨hfirst, ?_⟩
  have hl : applyOperator sch now (fuel + 1 + 1) field modelName "not_in"
      (v :: rest) =
      (applyOperator sch now (fuel + 1) field modelName "in"
        (v :: rest)).map .lnot := by
    rw [applyOperator]
    rfl
  have hr : applyOperator sch now (fuel + 1 + 1) field modelName "is_not"
      (v :: rest) =
      (applyOperator sch now (fuel + 1) field modelName "is"
        (v :: rest)).map .lnot := by
    rw [applyOperator]
    rfl
  rw [show fuel + 2 = fuel + 1 + 1 from rfl, hl, hr, hfirst]

/-- Witness for C10 on the Text field `code`. -/
theorem c10_scalar_in_compiles_as_is_witness :
    hasDot "code" = false ∧
    projectEntity.field? "code" = some (fld "Project" "code" .Text) ∧
    allowedOps FieldTy.Text = some ["is", "is_not", "contains",
      "not_contains", "starts_with", "ends_with", "in", "not_in"] ∧
    ((applyOperator demoSchema testNow 4 "code" "Project" "in" [.str "x"] =
      applyOperator demoSchema testNow 4 "code" "Project" "is" [.str "x"]) ∧
    (applyOperator demoSchema testNow 5 "code" "Project" "not_in"
        [.str "x"] =
      applyOperator demoSchema testNow 5 "code" "Project" "is_not"
        [.str "x"])) :=
  ⟨rfl, rfl, rfl,
    c10_scalar_in_compiles_as_is demoSchema testNow 3 "code" "Project"
      projectEntity (fld "Project" "code" .Text) (.str "x") []
      ["is", "is_not", "contains", "not_contains", "starts_with",
        "ends_with", "in", "not_in"] rfl rfl rfl (by decide) rfl (by decide)
      (by decide) rfl⟩

end Fakegrid
